import Mathlib

/-!
Shallow embedding of the `model` repository's resolution-and-rendering core
(`model/entity.py`, `model/utils.py`, `model/store.py`, `model/render.py`,
`model/runtime.py`, `model/graph.py`, `model/model.py`) and proofs settling
the claims about it.

Python values are modelled by `PyVal` (JSON-like data with insertion-ordered
dicts, as Python dicts are insertion ordered).  Python exceptions are modelled
by `PyErr`; fallible code returns `Except PyErr`.  Mutable state is threaded
explicitly.
-/

set_option maxHeartbeats 1000000

deriving instance DecidableEq for Except

namespace ModelRepo

mutual

/-- Model of the Python data values the core manipulates (YAML/JSON documents,
configuration dicts, strings).  `PyFields` is an insertion-ordered association
list modelling a Python `dict`; `PyList` models a Python `list`. -/
inductive PyVal : Type where
  | none : PyVal
  | bool (b : Bool) : PyVal
  | int (n : Int) : PyVal
  | str (s : String) : PyVal
  | list (xs : PyList) : PyVal
  | dict (fs : PyFields) : PyVal

/-- Spine of a Python `list` of `PyVal`s. -/
inductive PyList : Type where
  | nil : PyList
  | cons (hd : PyVal) (tl : PyList) : PyList

/-- Spine of a Python `dict` keyed by strings (the only key type the core
uses), in insertion order. -/
inductive PyFields : Type where
  | nil : PyFields
  | cons (key : String) (val : PyVal) (tl : PyFields) : PyFields

end

end ModelRepo

mutual

def ModelRepo.PyVal.beq : ModelRepo.PyVal → ModelRepo.PyVal → Bool
  | .none, .none => true
  | .bool a, .bool b => a == b
  | .int a, .int b => a == b
  | .str a, .str b => a == b
  | .list a, .list b => ModelRepo.PyList.beq a b
  | .dict a, .dict b => ModelRepo.PyFields.beq a b
  | _, _ => false

def ModelRepo.PyList.beq : ModelRepo.PyList → ModelRepo.PyList → Bool
  | .nil, .nil => true
  | .cons a as, .cons b bs => ModelRepo.PyVal.beq a b && ModelRepo.PyList.beq as bs
  | _, _ => false

def ModelRepo.PyFields.beq : ModelRepo.PyFields → ModelRepo.PyFields → Bool
  | .nil, .nil => true
  | .cons k v t, .cons k2 v2 t2 =>
      k == k2 && ModelRepo.PyVal.beq v v2 && ModelRepo.PyFields.beq t t2
  | _, _ => false

end

namespace ModelRepo

mutual

theorem PyVal.beqIffVal : ∀ a b : PyVal, PyVal.beq a b = true ↔ a = b
  | .none, .none => by simp [PyVal.beq]
  | .bool a, .bool b => by simp [PyVal.beq]
  | .int a, .int b => by simp [PyVal.beq]
  | .str a, .str b => by simp [PyVal.beq]
  | .list a, .list b => by
      simp only [PyVal.beq, PyList.beqIffList a b, PyVal.list.injEq]
  | .dict a, .dict b => by
      simp only [PyVal.beq, PyFields.beqIffFields a b, PyVal.dict.injEq]
  | .none, .bool _ => by simp [PyVal.beq]
  | .none, .int _ => by simp [PyVal.beq]
  | .none, .str _ => by simp [PyVal.beq]
  | .none, .list _ => by simp [PyVal.beq]
  | .none, .dict _ => by simp [PyVal.beq]
  | .bool _, .none => by simp [PyVal.beq]
  | .bool _, .int _ => by simp [PyVal.beq]
  | .bool _, .str _ => by simp [PyVal.beq]
  | .bool _, .list _ => by simp [PyVal.beq]
  | .bool _, .dict _ => by simp [PyVal.beq]
  | .int _, .none => by simp [PyVal.beq]
  | .int _, .bool _ => by simp [PyVal.beq]
  | .int _, .str _ => by simp [PyVal.beq]
  | .int _, .list _ => by simp [PyVal.beq]
  | .int _, .dict _ => by simp [PyVal.beq]
  | .str _, .none => by simp [PyVal.beq]
  | .str _, .bool _ => by simp [PyVal.beq]
  | .str _, .int _ => by simp [PyVal.beq]
  | .str _, .list _ => by simp [PyVal.beq]
  | .str _, .dict _ => by simp [PyVal.beq]
  | .list _, .none => by simp [PyVal.beq]
  | .list _, .bool _ => by simp [PyVal.beq]
  | .list _, .int _ => by simp [PyVal.beq]
  | .list _, .str _ => by simp [PyVal.beq]
  | .list _, .dict _ => by simp [PyVal.beq]
  | .dict _, .none => by simp [PyVal.beq]
  | .dict _, .bool _ => by simp [PyVal.beq]
  | .dict _, .int _ => by simp [PyVal.beq]
  | .dict _, .str _ => by simp [PyVal.beq]
  | .dict _, .list _ => by simp [PyVal.beq]

theorem PyList.beqIffList : ∀ a b : PyList, PyList.beq a b = true ↔ a = b
  | .nil, .nil => by simp [PyList.beq]
  | .cons a as, .cons b bs => by
      simp only [PyList.beq, Bool.and_eq_true, PyVal.beqIffVal a b,
        PyList.beqIffList as bs, PyList.cons.injEq]
  | .nil, .cons _ _ => by simp [PyList.beq]
  | .cons _ _, .nil => by simp [PyList.beq]

theorem PyFields.beqIffFields : ∀ a b : PyFields, PyFields.beq a b = true ↔ a = b
  | .nil, .nil => by simp [PyFields.beq]
  | .cons k v t, .cons k2 v2 t2 => by
      simp only [PyFields.beq, Bool.and_eq_true, PyVal.beqIffVal v v2,
        PyFields.beqIffFields t t2, PyFields.cons.injEq, beq_iff_eq]
      tauto
  | .nil, .cons _ _ _ => by simp [PyFields.beq]
  | .cons _ _ _, .nil => by simp [PyFields.beq]

end

instance : DecidableEq PyVal := fun a b =>
  decidable_of_iff (PyVal.beq a b = true) (PyVal.beqIffVal a b)

instance : DecidableEq PyList := fun a b =>
  decidable_of_iff (PyList.beq a b = true) (PyList.beqIffList a b)

instance : DecidableEq PyFields := fun a b =>
  decidable_of_iff (PyFields.beq a b = true) (PyFields.beqIffFields a b)

/-- `dict.__getitem__` style lookup (first matching key; Python dicts cannot
hold a key twice, so this is exact for values reachable from Python dicts). -/
def PyFields.lookup : PyFields → String → Option PyVal
  | .nil, _ => Option.none
  | .cons k v t, key => if k = key then some v else PyFields.lookup t key

/-- `d[k] = v` on a Python dict: replaces the value in place if the key is
present, else appends the new key at the end (insertion order). -/
def PyFields.set : PyFields → String → PyVal → PyFields
  | .nil, key, v => .cons key v .nil
  | .cons k w t, key, v =>
      if k = key then .cons k v t else .cons k w (PyFields.set t key v)

def PyFields.hasKey (fs : PyFields) (key : String) : Bool :=
  (fs.lookup key).isSome

def PyFields.append : PyFields → PyFields → PyFields
  | .nil, ys => ys
  | .cons k v t, ys => .cons k v (PyFields.append t ys)

def PyFields.keyList : PyFields → List String
  | .nil => []
  | .cons k _ t => k :: PyFields.keyList t

def PyList.toListV : PyList → List PyVal
  | .nil => []
  | .cons x t => x :: PyList.toListV t

def PyList.ofListV : List PyVal → PyList
  | [] => .nil
  | x :: t => .cons x (PyList.ofListV t)

def PyList.append : PyList → PyList → PyList
  | .nil, ys => ys
  | .cons x t, ys => .cons x (PyList.append t ys)

/-- Python truthiness (`bool(v)`) for the modelled values: `None`, `False`,
`0`, `""`, `[]` and `{}` are falsy, everything else truthy. -/
def pyTruthy : PyVal → Bool
  | .none => false
  | .bool b => b
  | .int n => n != 0
  | .str s => s ≠ ""
  | .list .nil => false
  | .list _ => true
  | .dict .nil => false
  | .dict _ => true

mutual

/-- `str(v)` / `repr(v)` rendering, used where the source interpolates values
into f-strings.  Scalar cases follow CPython; containers use a repr-like
rendering (its exact text is only ever compared with itself in the claims). -/
def pyToStr : PyVal → String
  | .none => "None"
  | .bool true => "True"
  | .bool false => "False"
  | .int n => toString n
  | .str s => s
  | .list xs => "[" ++ pyToStrList xs ++ "]"
  | .dict fs => "\x7b" ++ pyToStrFields fs ++ "\x7d"

def pyToStrList : PyList → String
  | .nil => ""
  | .cons x .nil => pyToStr x
  | .cons x t => pyToStr x ++ ", " ++ pyToStrList t

def pyToStrFields : PyFields → String
  | .nil => ""
  | .cons k v .nil => k ++ ": " ++ pyToStr v
  | .cons k v t => k ++ ": " ++ pyToStr v ++ ", " ++ pyToStrFields t

end

/-- Model of the Python exceptions raised by the embedded code.
`configurationError` and `validationError` are the typed errors of
`model/exceptions.py` (subclasses of `ModelError`); the rest are builtins
(`AttributeError`, `KeyError`, ...) or the `jsonmerge` library's
`BaseInstanceError`. -/
inductive PyErr : Type where
  | configurationError (msg : String)
  | validationError (msg : String)
  | attributeError (msg : String)
  | keyError (msg : String)
  | indexError (msg : String)
  | valueError (msg : String)
  | typeError (msg : String)
  | syntaxError (msg : String)
  | baseInstanceError (msg : String)
  deriving DecidableEq

/-- Whether the exception is a `ModelError` from `model/exceptions.py`
(`ConfigurationError` and `ValidationError` are its only subclasses in the
repository; there is no `MissingContextError` class anywhere in it). -/
def PyErr.isModelError : PyErr → Bool
  | .configurationError _ => true
  | .validationError _ => true
  | _ => false

def PyErr.isConfigurationError : PyErr → Bool
  | .configurationError _ => true
  | _ => false

def PyErr.isAttributeError : PyErr → Bool
  | .attributeError _ => true
  | _ => false

mutual

/-- `jsonmerge.merge(base, head)` with the default (schema-less) strategies,
as `utils.MergingChainMap._update` invokes it: `objectMerge` when the head is
an object (keys of the head merged recursively into a copy of the base, new
keys appended in head order; a non-object base raises `BaseInstanceError`),
`overwrite` for every other head type. -/
def jsonMerge : PyVal → PyVal → Except PyErr PyVal
  | base, .dict h =>
      match base with
      | .dict b =>
          match jsonMergeFields b h with
          | .ok r => .ok (.dict r)
          | .error e => .error e
      | _ => .error (.baseInstanceError
          "Base for an object merge strategy is not an object")
  | _, head => .ok head

/-- The `objectMerge` walk over the head's items: for each head key, merge its
value onto the base's value at that key (a key absent from the base merges
against the undefined base, which yields the head value). -/
def jsonMergeFields : PyFields → PyFields → Except PyErr PyFields
  | b, .nil => .ok b
  | b, .cons k v rest =>
      match (match b.lookup k with
             | some old => jsonMerge old v
             | Option.none => .ok v) with
      | .ok mv => jsonMergeFields (b.set k mv) rest
      | .error e => .error e

end

mutual

/-- Well-formedness of a value reachable from Python data: dict keys are
duplicate-free at every nesting level (guaranteed by Python's `dict`). -/
def PyVal.wf : PyVal → Bool
  | .dict fs => PyFields.wf fs
  | .list xs => PyList.wf xs
  | _ => true

def PyList.wf : PyList → Bool
  | .nil => true
  | .cons x t => PyVal.wf x && PyList.wf t

def PyFields.wf : PyFields → Bool
  | .nil => true
  | .cons k v t => !(t.hasKey k) && PyVal.wf v && PyFields.wf t

end

theorem PyFields.lookup_eq_none : ∀ (fs : PyFields) (k : String),
    fs.hasKey k = false → fs.lookup k = Option.none
  | .nil, _, _ => rfl
  | .cons k3 w t, k, h => by
      simp only [PyFields.hasKey] at h
      cases hl : PyFields.lookup (.cons k3 w t) k with
      | none => rfl
      | some x => rw [hl] at h; simp at h

theorem PyFields.lookup_set : ∀ (fs : PyFields) (k k2 : String) (v : PyVal),
    (fs.set k v).lookup k2 = if k = k2 then some v else fs.lookup k2
  | .nil, k, k2, v => by
      by_cases h : k = k2 <;> simp [PyFields.set, PyFields.lookup, h]
  | .cons k3 w t, k, k2, v => by
      by_cases h3 : k3 = k
      · subst h3
        by_cases h : k3 = k2 <;> simp [PyFields.set, PyFields.lookup, h]
      · by_cases h : k3 = k2
        · subst h
          have hne : ¬(k = k3) := fun hh => h3 hh.symm
          simp [PyFields.set, h3, PyFields.lookup, hne]
        · simp [PyFields.set, h3, PyFields.lookup, h,
            PyFields.lookup_set t k k2 v]

theorem PyFields.set_self : ∀ (fs : PyFields) (k : String) (v : PyVal),
    fs.lookup k = some v → fs.set k v = fs
  | .nil, k, v, h => by simp [PyFields.lookup] at h
  | .cons k3 w t, k, v, h => by
      by_cases h3 : k3 = k
      · subst h3
        simp [PyFields.lookup] at h
        simp [PyFields.set, h]
      · simp [PyFields.lookup, h3] at h
        simp [PyFields.set, h3, PyFields.set_self t k v h]

theorem PyFields.set_notMem : ∀ (fs : PyFields) (k : String) (v : PyVal),
    fs.hasKey k = false → fs.set k v = fs.append (.cons k v .nil)
  | .nil, k, v, _ => by simp [PyFields.set, PyFields.append]
  | .cons k3 w t, k, v, h => by
      simp only [PyFields.hasKey, PyFields.lookup] at h
      by_cases h3 : k3 = k
      · simp [h3] at h
      · simp only [h3, if_false] at h
        have : t.hasKey k = false := by simpa [PyFields.hasKey] using h
        simp [PyFields.set, h3, PyFields.append, PyFields.set_notMem t k v this]

theorem PyFields.append_nil : ∀ fs : PyFields, fs.append .nil = fs
  | .nil => rfl
  | .cons k v t => by simp [PyFields.append, PyFields.append_nil t]

theorem PyFields.append_one_append : ∀ (a : PyFields) (k : String) (v : PyVal)
    (t : PyFields), (a.append (.cons k v .nil)).append t = a.append (.cons k v t)
  | .nil, k, v, t => by simp [PyFields.append]
  | .cons k3 w a, k, v, t => by
      simp [PyFields.append, PyFields.append_one_append a k v t]

theorem PyFields.hasKey_append_one : ∀ (fs : PyFields) (k k2 : String) (v : PyVal),
    (fs.append (.cons k v .nil)).hasKey k2 = (fs.hasKey k2 || decide (k = k2))
  | .nil, k, k2, v => by
      by_cases h : k = k2 <;>
        simp [PyFields.append, PyFields.hasKey, PyFields.lookup, h]
  | .cons k3 w t, k, k2, v => by
      by_cases h : k3 = k2
      · simp [PyFields.append, PyFields.hasKey, PyFields.lookup, h]
      · have ht := PyFields.hasKey_append_one t k k2 v
        simp only [PyFields.hasKey] at ht ⊢
        simp [PyFields.append, PyFields.lookup, h, ht]

/-- Merging fields whose keys are all new appends them in head order
(the `objectMerge` walk against an undefined/absent base). -/
theorem jsonMergeFields_disjoint : ∀ (h b : PyFields),
    PyFields.wf h = true → (∀ k, h.hasKey k = true → b.hasKey k = false) →
    jsonMergeFields b h = .ok (b.append h)
  | .nil, b, _, _ => by simp [jsonMergeFields, PyFields.append_nil]
  | .cons k v t, b, hwf, hdisj => by
      have hbk : b.hasKey k = false := hdisj k (by
        simp [PyFields.hasKey, PyFields.lookup])
      have hbk2 : b.lookup k = Option.none := PyFields.lookup_eq_none b k hbk
      simp only [PyFields.wf, Bool.and_eq_true, Bool.not_eq_true'] at hwf
      obtain ⟨⟨htk, hv⟩, htw⟩ := hwf
      have hstep : ∀ k2, t.hasKey k2 = true → (b.set k v).hasKey k2 = false := by
        intro k2 hk2
        have hkk2 : ¬(k = k2) := by
          intro hkk
          subst hkk
          rw [htk] at hk2
          exact Bool.false_ne_true hk2
        have hb2 : b.hasKey k2 = false := hdisj k2 (by
          simp [PyFields.hasKey, PyFields.lookup, hkk2]
          simpa [PyFields.hasKey] using hk2)
        rw [PyFields.set_notMem b k v hbk, PyFields.hasKey_append_one]
        simp [hb2, hkk2]
      have hrec := jsonMergeFields_disjoint t (b.set k v) htw hstep
      rw [PyFields.set_notMem b k v hbk, PyFields.append_one_append] at hrec
      simp only [jsonMergeFields, hbk2]
      rw [PyFields.set_notMem b k v hbk]
      exact hrec

/-- A field untouched by an `objectMerge` walk (its key absent from the head)
keeps its base value. -/
theorem jsonMergeFields_lookup_frozen : ∀ (h b r : PyFields) (k : String),
    jsonMergeFields b h = .ok r → h.hasKey k = false → r.lookup k = b.lookup k
  | .nil, b, r, k, hm, _ => by
      simp [jsonMergeFields] at hm
      simp [hm]
  | .cons k2 v t, b, r, k, hm, hk => by
      simp only [PyFields.hasKey, PyFields.lookup] at hk
      by_cases hne : k2 = k
      · simp [hne] at hk
      · simp only [hne, if_false] at hk
        have hk2 : t.hasKey k = false := by simpa [PyFields.hasKey] using hk
        simp only [jsonMergeFields] at hm
        cases hb : b.lookup k2 with
        | none =>
            rw [hb] at hm
            simp at hm
            rw [jsonMergeFields_lookup_frozen t (b.set k2 v) r k hm hk2,
              PyFields.lookup_set]
            simp [hne]
        | some old =>
            rw [hb] at hm
            simp at hm
            cases hmv : jsonMerge old v with
            | error e => rw [hmv] at hm; simp at hm
            | ok mv =>
                rw [hmv] at hm
                simp at hm
                rw [jsonMergeFields_lookup_frozen t (b.set k2 mv) r k hm hk2,
                  PyFields.lookup_set]
                simp [hne]

/-- Merging a well-formed head onto an empty dict base yields the head. -/
theorem jsonMerge_nil_base : ∀ v : PyVal, PyVal.wf v = true →
    jsonMerge (.dict .nil) v = .ok v
  | .dict fs, hwf => by
      simp only [jsonMerge]
      rw [jsonMergeFields_disjoint fs .nil (by simpa [PyVal.wf] using hwf)
        (by intro k2 _; simp [PyFields.hasKey, PyFields.lookup])]
      rfl
  | .none, _ => by simp [jsonMerge]
  | .bool _, _ => by simp [jsonMerge]
  | .int _, _ => by simp [jsonMerge]
  | .str _, _ => by simp [jsonMerge]
  | .list _, _ => by simp [jsonMerge]

mutual

/-- Idempotence of the default `jsonmerge` merge in its head argument: once a
(duplicate-free) head has been merged in, merging it again changes nothing. -/
theorem jsonMerge_idem : ∀ (v x w : PyVal), PyVal.wf v = true →
    jsonMerge x v = .ok w → jsonMerge w v = .ok w
  | .dict h, x, w, hwf, hm => by
      match x with
      | .dict b =>
          simp only [jsonMerge] at hm
          cases hr : jsonMergeFields b h with
          | error e => rw [hr] at hm; simp at hm
          | ok r =>
              rw [hr] at hm
              simp at hm
              subst hm
              simp only [jsonMerge]
              rw [jsonMergeFields_idem h b r (by simpa [PyVal.wf] using hwf) hr]
      | .none => simp [jsonMerge] at hm
      | .bool _ => simp [jsonMerge] at hm
      | .int _ => simp [jsonMerge] at hm
      | .str _ => simp [jsonMerge] at hm
      | .list _ => simp [jsonMerge] at hm
  | .none, x, w, _, hm => by
      simp [jsonMerge] at hm; subst hm; simp [jsonMerge]
  | .bool b, x, w, _, hm => by
      simp [jsonMerge] at hm; subst hm; simp [jsonMerge]
  | .int n, x, w, _, hm => by
      simp [jsonMerge] at hm; subst hm; simp [jsonMerge]
  | .str s, x, w, _, hm => by
      simp [jsonMerge] at hm; subst hm; simp [jsonMerge]
  | .list xs, x, w, _, hm => by
      simp [jsonMerge] at hm; subst hm; simp [jsonMerge]

theorem jsonMergeFields_idem : ∀ (h b r : PyFields), PyFields.wf h = true →
    jsonMergeFields b h = .ok r → jsonMergeFields r h = .ok r
  | .nil, b, r, _, hm => by
      simp [jsonMergeFields] at hm
      simp [jsonMergeFields, hm]
  | .cons k v t, b, r, hwf, hm => by
      simp only [PyFields.wf, Bool.and_eq_true, Bool.not_eq_true'] at hwf
      obtain ⟨⟨htk, hv⟩, htw⟩ := hwf
      simp only [jsonMergeFields] at hm
      have main : ∀ mv : PyVal, jsonMerge mv v = .ok mv →
          jsonMergeFields (b.set k mv) t = .ok r →
          jsonMergeFields r (.cons k v t) = .ok r := by
        intro mv hmv hrest
        have hrk : r.lookup k = some mv := by
          rw [jsonMergeFields_lookup_frozen t (b.set k mv) r k hrest htk,
            PyFields.lookup_set]
          simp
        simp only [jsonMergeFields, hrk, hmv]
        rw [PyFields.set_self r k mv hrk]
        exact jsonMergeFields_idem t (b.set k mv) r htw hrest
      cases hb : b.lookup k with
      | none =>
          rw [hb] at hm
          simp at hm
          exact main v (jsonMerge_idem v (.dict .nil) v hv (jsonMerge_nil_base v hv)) hm
      | some old =>
          rw [hb] at hm
          simp at hm
          cases hmv : jsonMerge old v with
          | error e => rw [hmv] at hm; simp at hm
          | ok mv =>
              rw [hmv] at hm
              simp at hm
              exact main mv (jsonMerge_idem v old mv hv hmv) hm

end

end ModelRepo

namespace ModelRepo

/-! ## Interpolation engine (`utils._interpolate_str`, `utils.fstring`,
`utils.interpolate`)

The interpolation context `data_context` is wrapped in `utils.AttrAccess`,
whose `__getitem__` turns a missing key into an `AttributeError`.  The model
covers plain-name references (`\x7bname\x7d`); the source additionally
evaluates arbitrary Python expressions via `ast.parse`/`eval`, which is out of
a data-level embedding's scope — a non-identifier reference is modelled as the
`SyntaxError` that `ast.parse` raises for the claims' inputs. -/

/-- Characters allowed to start / continue a Python identifier (ASCII). -/
def pyIdentStart (c : Char) : Bool :=
  (c ≥ 'a' && c ≤ 'z') || (c ≥ 'A' && c ≤ 'Z') || c = '_'

def pyIdentCont (c : Char) : Bool :=
  pyIdentStart c || (c ≥ '0' && c ≤ '9')

def isPyIdent (s : String) : Bool :=
  match s.data with
  | [] => false
  | c :: rest => pyIdentStart c && rest.all pyIdentCont

mutual

/-- `str.format_map(data_context)` for the modelled fragment, as a two-state
scan: outside braces, `\x7b\x7b` and `\x7d\x7d` are brace escapes, a lone close
brace raises `ValueError`, ordinary characters are copied; `formatMapRef`
accumulates a reference between braces.  `\x7bname\x7d` is replaced by
`str(data_context[name])` — a missing name raises `AttributeError` through
`AttrAccess` — an unmatched open brace raises `ValueError`, and an empty field
hits format auto-numbering (`IndexError` against a mapping-only context). -/
def formatMapChars (ctx : PyFields) : List Char → Except PyErr String
  | [] => .ok ""
  | '{' :: '{' :: rest =>
      match formatMapChars ctx rest with
      | .ok s => .ok ("\x7b" ++ s)
      | .error e => .error e
  | '}' :: '}' :: rest =>
      match formatMapChars ctx rest with
      | .ok s => .ok ("\x7d" ++ s)
      | .error e => .error e
  | '{' :: rest => formatMapRef ctx [] rest
  | '}' :: _ => .error (.valueError "Single brace encountered in format string")
  | c :: rest =>
      match formatMapChars ctx rest with
      | .ok s => .ok (String.mk [c] ++ s)
      | .error e => .error e

def formatMapRef (ctx : PyFields) (acc : List Char) : List Char → Except PyErr String
  | [] => .error (.valueError "Single brace encountered in format string")
  | '}' :: rest =>
      match acc.reverse with
      | [] => .error (.indexError "Replacement index out of range")
      | name =>
          match ctx.lookup (String.mk name) with
          | Option.none => .error (.attributeError (String.mk name))
          | some v =>
              match formatMapChars ctx rest with
              | .ok s => .ok (pyToStr v ++ s)
              | .error e => .error e
  | c :: rest => formatMapRef ctx (c :: acc) rest

end

def pyFormatMap (s : String) (ctx : PyFields) : Except PyErr String :=
  formatMapChars ctx s.data

/-- One output element produced by `utils.fstring`'s regex scan:
an embedded expression or a literal run. -/
inductive FSeg : Type where
  | expr (e : String)
  | lit (s : String)
  deriving DecidableEq

mutual

/-- The `_fstring_expr` regex scan as a two-state machine: a brace-enclosed
run is an expression; anything outside braces is literal text (produced one
character at a time, which joins to the same final value as the regex's
maximal `[^\x7b]+` runs).  A lone open brace matches neither alternative and is
skipped by the regex, so on an unclosed reference the accumulated characters
are rescanned with every open brace dropped; a close brace with an empty
reference likewise fails the expression alternative and the close brace is
rescanned as literal text. -/
def fstringSegs : List Char → List FSeg
  | [] => []
  | '{' :: rest => fstringRef [] rest
  | c :: rest => .lit (String.mk [c]) :: fstringSegs rest

def fstringRef (acc : List Char) : List Char → List FSeg
  | [] => (acc.reverse.filter (fun c => c ≠ '{')).map (fun c => .lit (String.mk [c]))
  | '}' :: rest =>
      match acc.reverse with
      | [] => .lit "\x7d" :: fstringSegs rest
      | name => .expr (String.mk name) :: fstringSegs rest
  | c :: rest => fstringRef (c :: acc) rest

end

/-- Evaluate one `\x7b...\x7d` expression against the context, as
`eval(code, None, data_context)` does for a plain name: the name is looked up
in the `AttrAccess` context, whose missing-key `AttributeError` propagates out
of `eval`.  Non-identifier expressions are modelled by the `SyntaxError` of
`ast.parse` (see the section comment). -/
def evalFExpr (ctx : PyFields) (e : String) : Except PyErr PyVal :=
  if isPyIdent e then
    match ctx.lookup e with
    | some v => .ok v
    | Option.none => .error (.attributeError e)
  else .error (.syntaxError e)

def fstringOutputs (ctx : PyFields) : List FSeg → Except PyErr (List PyVal)
  | [] => .ok []
  | .lit s :: rest =>
      match fstringOutputs ctx rest with
      | .ok out => .ok (.str s :: out)
      | .error e => .error e
  | .expr e :: rest =>
      match evalFExpr ctx e with
      | .ok v =>
          match fstringOutputs ctx rest with
          | .ok out => .ok (v :: out)
          | .error err => .error err
      | .error err => .error err

/-- `utils.fstring(string, data_context)`: evaluate the scan's outputs; a
single output is returned raw (so a single expression can produce a non-string
value), more than one output is joined with `str()`, and an empty output list
hits `output[0]` (`IndexError`). -/
def fstring (s : String) (ctx : PyFields) : Except PyErr PyVal :=
  match fstringOutputs ctx (fstringSegs s.data) with
  | .error e => .error e
  | .ok [] => .error (.indexError "list index out of range")
  | .ok [v] => .ok v
  | .ok out => .ok (.str (String.join (out.map pyToStr)))

def PyErr.isAttrOrKeyError : PyErr → Bool
  | .attributeError _ => true
  | .keyError _ => true
  | _ => false

/-- `utils._interpolate_str(v, data_context, allow_missing)`: try the
`format_map` fast path; on its `AttributeError`/`KeyError` fall back to
`fstring`; if that raises `AttributeError` too, return the original string
unchanged when `allow_missing` is set, else raise an `AttributeError`
describing the failed interpolation. -/
def interpolateStr (v : String) (ctx : PyFields) (allowMissing : Bool) :
    Except PyErr PyVal :=
  match pyFormatMap v ctx with
  | .ok out => .ok (.str out)
  | .error e =>
      if e.isAttrOrKeyError then
        match fstring v ctx with
        | .ok r => .ok r
        | .error e2 =>
            if e2.isAttributeError then
              if allowMissing then .ok (.str v)
              else .error (.attributeError ("Error interpolating " ++ v))
            else .error e2
      else .error e

mutual

/-- `utils.interpolate(data, data_context, allow_missing)`: recursive walk of
lists, dicts and strings.  Scalars are returned as-is. -/
def interpolate (data : PyVal) (ctx : PyFields) (am : Bool) : Except PyErr PyVal :=
  match data with
  | .list xs =>
      match interpolateItems xs ctx am with
      | .ok r => .ok (.list r)
      | .error e => .error e
  | .dict fs =>
      match interpolateFields fs ctx am with
      | .ok r => .ok (.dict r)
      | .error e => .error e
  | .str s => interpolateStr s ctx am
  | other => .ok other
termination_by structural data

def interpolateItems (xs : PyList) (ctx : PyFields) (am : Bool) :
    Except PyErr PyList :=
  match xs with
  | .nil => .ok .nil
  | .cons x t =>
      match interpolate x ctx am with
      | .ok r =>
          match interpolateItems t ctx am with
          | .ok rt => .ok (.cons r rt)
          | .error e => .error e
      | .error e => .error e
termination_by structural xs

def interpolateFields (fs : PyFields) (ctx : PyFields) (am : Bool) :
    Except PyErr PyFields :=
  match fs with
  | .nil => .ok .nil
  | .cons k v t =>
      match interpolateDictItem v ctx am with
      | .ok rv =>
          match interpolateFields t ctx am with
          | .ok rt => .ok (.cons k rv rt)
          | .error e => .error e
      | .error e => .error e
termination_by structural fs

/-- The body of `interpolate`'s `for k, v in data.items()` loop: a dict value
recurses with `interpolate(v, data_context)` (inlined to its dict branch) —
dropping `allow_missing` back to its `False` default (the subject of one of
the claims) — a list value is rebuilt item by item, a string value is
interpolated, anything else is kept. -/
def interpolateDictItem (v : PyVal) (ctx : PyFields) (am : Bool) :
    Except PyErr PyVal :=
  match v with
  | .dict d =>
      match interpolateFields d ctx false with
      | .ok r => .ok (.dict r)
      | .error e => .error e
  | .list xs =>
      match interpolateItems xs ctx am with
      | .ok r => .ok (.list r)
      | .error e => .error e
  | .str s => interpolateStr s ctx am
  | other => .ok other
termination_by structural v

end


/-! ## Generic association-list state (Python dicts holding model objects) -/

def alookup {A : Type} : List (String × A) → String → Option A
  | [], _ => Option.none
  | (k, v) :: t, key => if k = key then some v else alookup t key

/-- `d[k] = v` on a Python dict keyed by strings: replace in place or append. -/
def aset {A : Type} : List (String × A) → String → A → List (String × A)
  | [], key, v => [(key, v)]
  | (k, w) :: t, key, v =>
      if k = key then (k, v) :: t else (k, w) :: aset t key v

/-! ## `utils.prop_get`, `utils.filter_select`, `utils.pick` -/

def listIsPref : List Char → List Char → Bool
  | [], _ => true
  | _ :: _, [] => false
  | a :: as, b :: bs => a = b && listIsPref as bs

def listInfix (pat : List Char) : List Char → Bool
  | [] => listIsPref pat []
  | b :: t => listIsPref pat (b :: t) || listInfix pat t

/-- `str.startswith` on the underlying characters. -/
def strStarts (s pat : String) : Bool := listIsPref pat.data s.data

/-- `str.endswith` on the underlying characters. -/
def strEnds (s pat : String) : Bool := listIsPref pat.data.reverse s.data.reverse

/-- ASCII `str.lower`, the only case the embedded identifiers exercise. -/
def charLower (c : Char) : Char :=
  if 'A' ≤ c ∧ c ≤ 'Z' then Char.ofNat (c.toNat + 32) else c

def strLower (s : String) : String := .mk (s.data.map charLower)

/-- `str.split(".")` on the underlying characters (as `prop_get` does). -/
def splitDotChars : List Char → List (List Char)
  | [] => [[]]
  | '.' :: rest => [] :: splitDotChars rest
  | c :: rest =>
      match splitDotChars rest with
      | [] => [[c]]
      | g :: gs => (c :: g) :: gs

/-- `str.split(":")` on the underlying characters. -/
def splitColonChars : List Char → List (List Char)
  | [] => [[]]
  | ':' :: rest => [] :: splitColonChars rest
  | c :: rest =>
      match splitColonChars rest with
      | [] => [[c]]
      | g :: gs => (c :: g) :: gs

/-- One step of `utils.prop_get`'s path walk on data values.  The source first
tries `getattr(o, part)`; on plain data values that only ever resolves Python
built-in method names, which the embedded configuration paths never use, so
the model goes straight to the `part not in o` / `o[part]` branch: a dict
consults its keys (a missing key makes `prop_get` return its default), `in` on
a string is a substring test and on a list a membership test — when those hit,
the subsequent string/list indexing by a string raises `TypeError` — and `in`
on a scalar raises `TypeError` directly. -/
def propGetGo (default : PyVal) : PyVal → List String → Except PyErr PyVal
  | o, [] => .ok o
  | o, part :: rest =>
      match o with
      | .dict fs =>
          match fs.lookup part with
          | some v => propGetGo default v rest
          | Option.none => .ok default
      | .str s =>
          if listInfix part.data s.data then
            .error (.typeError "string indices must be integers")
          else .ok default
      | .list xs =>
          if (xs.toListV).contains (.str part) then
            .error (.typeError "list indices must be integers")
          else .ok default
      | _ => .error (.typeError "argument is not iterable")

def propGet (obj : PyVal) (path : String) (default : PyVal) : Except PyErr PyVal :=
  if path = "" then .ok obj
  else propGetGo default obj ((splitDotChars path.data).map String.mk)

/-- `utils.filter_select` for a single query pair: `prop_get(item, k)`
compared against the expected value; an error is caught and the
`getattr(item, k, _marker)` fallback yields the `_marker` sentinel, which
never equals an expected value. -/
def filterSelectOne (item : PyVal) (k : String) (expect : PyVal) : Bool :=
  match propGet item k .none with
  | .ok v => decide (v = expect)
  | .error _ => false

def filterSelect (item : PyVal) (query : List (String × PyVal)) : Bool :=
  query.all (fun q => filterSelectOne item q.1 q.2)

def pickGo (query : List (String × PyVal)) (default : PyVal) : List PyVal → PyVal
  | [] => default
  | item :: rest =>
      if filterSelect item query then item else pickGo query default rest

/-- `utils.pick(lst, query, default)`: first item of the iterable satisfying
the query, else the default.  Iterating a dict yields its keys and iterating a
string its characters, as in Python; scalars are not iterable. -/
def pick (lst : PyVal) (query : List (String × PyVal)) (default : PyVal) :
    Except PyErr PyVal :=
  match lst with
  | .list xs => .ok (pickGo query default xs.toListV)
  | .dict fs => .ok (pickGo query default ((fs.keyList).map (fun k => .str k)))
  | .str s => .ok (pickGo query default (s.data.map (fun c => .str (String.mk [c]))))
  | _ => .error (.typeError "argument is not iterable")

/-! ## `entity.Entity` on `utils.MergingChainMap` -/

/-- A provenance reference as `Entity.add_facet` stores it: `None`, a string
kept verbatim (URLs and the `<...>` convention of internally managed facets),
or a string converted to an absolute `Path` (the filesystem absolutization
itself is outside the model; the conversion is recorded by the constructor). -/
inductive SrcRef : Type where
  | pyNone : SrcRef
  | strRef (s : String) : SrcRef
  | pathRef (s : String) : SrcRef
  deriving DecidableEq

/-- The normalization at the top of `Entity.add_facet`. -/
def srcRefNorm : SrcRef → SrcRef
  | .strRef s =>
      if strStarts s "http://" ∨ strStarts s "https://"
          ∨ (strStarts s "<" ∨ strEnds s ">") then .strRef s
      else .pathRef s
  | r => r

def mcmViewLoop : PyFields → List PyFields → Except PyErr PyFields
  | r, [] => .ok r
  | r, m :: rest =>
      match jsonMergeFields r m with
      | .ok r2 => mcmViewLoop r2 rest
      | .error e => .error e

/-- `utils.MergingChainMap._update`: with a single map the dict contents are
that map; otherwise `jsonmerge.merge` (no schema) folds the maps oldest
first into an initially empty result. -/
def mcmView (maps : List PyFields) : Except PyErr PyFields :=
  match maps with
  | [m] => .ok m
  | ms => mcmViewLoop .nil ms.reverse

/-- `entity.Entity`: a layered document.  `maps` is the chain's `_maps`, most
recent facet first, ending with the initial empty map; `srcRef` is the
`src_ref` list in insertion order; `view` caches the chain's materialized dict
contents (recomputed by `_update` at every mutation); `schema` is stored for
`validate()` and never consulted by the facet merge; `eid` is an object
identity used to model Python aliasing of entities shared between the store
and services. -/
structure Entity : Type where
  eid : Nat
  maps : List PyFields
  srcRef : List SrcRef
  view : PyFields
  schema : Option PyVal
  deriving DecidableEq

def Entity.new (eid : Nat) (schema : Option PyVal) : Entity :=
  { eid := eid, maps := [.nil], srcRef := [], view := .nil, schema := schema }

/-- `Entity.add_facet(data, src_ref)`: push the facet as a new child map of
the chain (which recomputes the materialized view, surfacing any merge error
at this point, as in the source) and append the normalized provenance. -/
def Entity.addFacet (e : Entity) (data : PyFields) (ref : SrcRef) :
    Except PyErr Entity :=
  let maps := data :: e.maps
  match mcmView maps with
  | .ok v =>
      .ok { e with maps := maps, srcRef := e.srcRef ++ [srcRefNorm ref], view := v }
  | .error err => .error err

/-- `Entity(data, schema, src_ref)` with non-`None` data. -/
def Entity.make (eid : Nat) (data : PyFields) (schema : Option PyVal)
    (ref : SrcRef) : Except PyErr Entity :=
  (Entity.new eid schema).addFacet data ref

/-- The `facets` property: `tuple(reversed(tuple(zip(maps, refs))))`, where
`maps` lists facet data most recent first and `refs` lists provenance in
insertion order (`zip` stops at the shorter list). -/
def Entity.facets (e : Entity) : List (PyFields × SrcRef) :=
  (List.zip e.maps e.srcRef).reverse

/-- `Entity.serialized()` / `dict(self.__data)`: the materialized view. -/
def Entity.serialized (e : Entity) : PyVal := .dict e.view

/-- `Entity.get(key, default)` → `utils.prop_get` on the chain. -/
def Entity.get (e : Entity) (key : String) (default : PyVal) :
    Except PyErr PyVal :=
  propGet (.dict e.view) key default

/-- `Entity.__getattr__`: a missing key raises `AttributeError`. -/
def Entity.attr (e : Entity) (key : String) : Except PyErr PyVal :=
  match e.view.lookup key with
  | some v => .ok v
  | Option.none => .error (.attributeError key)

/-! ## `render.Renderer` (the Output accumulator) -/

/-- `render.Output`: a named artifact with payload and annotations.  Plugin
objects inside annotations are represented by their names. -/
structure Output : Type where
  name : String
  data : PyVal
  annotations : PyFields
  deriving DecidableEq

/-- `Renderer` is a `list` subclass with a name index. -/
structure Renderer : Type where
  items : List Output
  index : List (String × Output)
  deriving DecidableEq

def Renderer.empty : Renderer := { items := [], index := [] }

/-- `Renderer.add(name, data, plugin, ignore_existing=False, **kwargs)`.
When the name is already indexed the record is left untouched: with
`ignore_existing` the call returns silently, otherwise it logs a collision
warning (surfaced here as the returned flag) and still returns without
overwriting.  Otherwise a new `Output` gets the kwargs as annotations with
`plugin` set to the one-element plugin list, and is appended and indexed. -/
def Renderer.add (r : Renderer) (name : String) (data : PyVal) (plugin : String)
    (ignoreExisting : Bool) (kwargs : PyFields) : Renderer × Bool :=
  if (alookup r.index name).isSome then
    if ignoreExisting then (r, false) else (r, true)
  else
    let ent : Output :=
      { name := name, data := data,
        annotations := kwargs.set "plugin" (.list (.cons (.str plugin) .nil)) }
    ({ items := r.items ++ [ent], index := aset r.index name ent }, false)

/-- The payload currently recorded under a name. -/
def Renderer.payload (r : Renderer) (name : String) : Option PyVal :=
  (alookup r.index name).map Output.data

/-! ## `runtime.RuntimeImpl` and plugin capability lookup -/

/-- A runtime plugin instance, abstracted to the attributes a `getattr`
observes on it; a defined method is a truthy attribute value. -/
structure Plugin : Type where
  name : String
  attrs : List (String × PyVal)
  deriving DecidableEq

def Plugin.getattrD (p : Plugin) (attrName : String) : Option PyVal :=
  alookup p.attrs attrName

/-- `getattr(plugin, mn, None)` followed by the `if m:` truthiness test. -/
def Plugin.defines (p : Plugin) (attrName : String) : Bool :=
  match p.getattrD attrName with
  | some v => pyTruthy v
  | Option.none => false

structure RuntimeImpl : Type where
  name : String
  plugins : List Plugin
  deriving DecidableEq

def methodLookupGo (attrName : String) : List Plugin → Except PyErr PyVal
  | [] => .error (.attributeError
      ("RuntimeImpl plugins didn't provide a method " ++ attrName))
  | p :: rest =>
      match p.getattrD attrName with
      | some m => if pyTruthy m then .ok m else methodLookupGo attrName rest
      | Option.none => methodLookupGo attrName rest

/-- `RuntimeImpl.method_lookup(name, reverse=True)`: scan the plugin list —
reversed by default — and return the first truthy attribute found; raise
`AttributeError` when no plugin provides the capability. -/
def RuntimeImpl.methodLookup (rt : RuntimeImpl) (attrName : String)
    (reverse : Bool) : Except PyErr PyVal :=
  methodLookupGo attrName (if reverse = true then rt.plugins.reverse else rt.plugins)

/-! ## `runtime.render_graph` as an event trace

`render_graph` only consumes the graph through `graph.services` (objects with
a `runtime` and a `kind`) and `graph.relations` (objects whose endpoints
expose their owning service's runtime); `GraphR` is that projection.  The
trace records every plugin hook invocation in execution order. -/

structure ServiceR : Type where
  name : String
  kind : String
  runtime : Option RuntimeImpl
  deriving DecidableEq

structure EndpointR : Type where
  name : String
  serviceRuntime : Option RuntimeImpl
  deriving DecidableEq

structure RelationR : Type where
  kind : String
  endpoints : List EndpointR
  deriving DecidableEq

structure GraphR : Type where
  services : List ServiceR
  relations : List RelationR
  deriving DecidableEq

inductive REvent : Type where
  | initCall (plugin : String)
  | renderCall (method : String) (service : String) (plugin : String)
  | renderEpCall (method : String) (endpoint : String) (plugin : String)
  | finiCall (plugin : String)
  deriving DecidableEq

/-- The `runtimes` set collected in the first loop: the distinct runtimes
referenced by services, deduplicated by value as a Python `set` of
`RuntimeImpl` does (CPython's set iteration order is unspecified; the model
fixes first-occurrence order, on which no claim depends). -/
def runtimesOf (g : GraphR) : List RuntimeImpl :=
  (g.services.filterMap ServiceR.runtime).foldl
    (fun acc rt => if acc.contains rt then acc else acc ++ [rt]) []

def initCalls (g : GraphR) : List REvent :=
  (runtimesOf g).flatMap (fun rt => rt.plugins.filterMap (fun p =>
    if p.defines "init" then some (.initCall p.name) else Option.none))

def finiCalls (g : GraphR) : List REvent :=
  (runtimesOf g).flatMap (fun rt => rt.plugins.filterMap (fun p =>
    if p.defines "fini" then some (.finiCall p.name) else Option.none))

/-- The per-phase service loop: for every service with a runtime, every plugin
defining `{phase}render_{kind.lower()}` is invoked. -/
def svcCalls (phase : String) (g : GraphR) : List REvent :=
  g.services.flatMap (fun s =>
    match s.runtime with
    | Option.none => []
    | some rt => rt.plugins.filterMap (fun p =>
        let mn := phase ++ "render_" ++ strLower s.kind
        if p.defines mn then some (.renderCall mn s.name p.name) else Option.none))

/-- The per-phase relation loop: for every endpoint of every relation whose
service has a runtime, every plugin defining `{phase}render_relation_ep`. -/
def relCalls (phase : String) (g : GraphR) : List REvent :=
  g.relations.flatMap (fun rel => rel.endpoints.flatMap (fun ep =>
    match ep.serviceRuntime with
    | Option.none => []
    | some rt => rt.plugins.filterMap (fun p =>
        let mn := phase ++ "render_relation_ep"
        if p.defines mn then some (.renderEpCall mn ep.name p.name) else Option.none)))

/-- `runtime.render_graph(graph, outputs)` as the sequence of plugin hook
invocations it performs: the init loop over the collected runtimes, then the
service loop followed by the relation loop for each phase in
`["pre_", "", "post_"]`, then the fini loop. -/
def renderGraphTrace (g : GraphR) : List REvent :=
  initCalls g
    ++ (["pre_", "", "post_"].flatMap (fun ph => svcCalls ph g ++ relCalls ph g))
    ++ finiCalls g


/-! ## Graph model objects (`model.py`) and the Store (`store.py`)

The store snapshot in `src/model/store.py` is mid-refactor: its tests call an
`ExtendingIndexer` class that is absent from the source, and the
`AttributeIndexer` revision that is present cannot serve the
`store.component` / `store.interface` / `store.runtime` attribute access the
planner performs (its `__getattr__` returns an `AttributeError` instance
instead of an index).  The kind-named index is therefore modelled from the
spec: `Modelled from the spec:` the store boundary offers `add(entity)` and
`get(kind, name)` keyed by `(kind, name)`; here it is realized as a lookup of
the `Store.getId` string `f"{kind}:{name}"` in the store state that
`Store.add` maintains. -/

def vlookup {A : Type} : List (PyVal × A) → PyVal → Option A
  | [], _ => Option.none
  | (k, v) :: t, key => if k = key then some v else vlookup t key

def vset {A : Type} : List (PyVal × A) → PyVal → A → List (PyVal × A)
  | [], key, v => [(key, v)]
  | (k, w) :: t, key, v =>
      if k = key then (k, v) :: t else (k, w) :: vset t key v

/-- `v[k]` subscription. -/
def pyIndex (v : PyVal) (k : String) : Except PyErr PyVal :=
  match v with
  | .dict fs =>
      match fs.lookup k with
      | some w => .ok w
      | Option.none => .error (.keyError k)
  | .list _ => .error (.typeError "list indices must be integers")
  | .str _ => .error (.typeError "string indices must be integers")
  | _ => .error (.typeError "object is not subscriptable")

/-- `v.get(k, default)` — plain `dict.get`; anything that is not a dict has
no `get` attribute. -/
def pyDictGet (v : PyVal) (k : String) (default : PyVal) : Except PyErr PyVal :=
  match v with
  | .dict fs => .ok ((fs.lookup k).getD default)
  | _ => .error (.attributeError "get")

/-- `dict.get` with an arbitrary key value; the modelled dicts only carry
string keys, so a non-string key finds nothing. -/
def pyDictGetV (v : PyVal) (key : PyVal) (default : PyVal) : Except PyErr PyVal :=
  match v with
  | .dict fs =>
      match key with
      | .str s => .ok ((fs.lookup s).getD default)
      | _ => .ok default
  | _ => .error (.attributeError "get")

def asStr (v : PyVal) (err : PyErr) : Except PyErr String :=
  match v with
  | .str s => .ok s
  | _ => .error err

def asDictD (v : PyVal) : Except PyErr PyFields :=
  match v with
  | .dict fs => .ok fs
  | _ => .error (.typeError "a mapping is required")

/-- `for x in v`: Python iteration over the modelled values (a dict yields its
keys, a string its characters, scalars are not iterable). -/
def iterVals (v : PyVal) : Except PyErr (List PyVal) :=
  match v with
  | .list xs => .ok xs.toListV
  | .dict fs => .ok ((fs.keyList).map (fun k => .str k))
  | .str s => .ok (s.data.map (fun c => .str (String.mk [c])))
  | _ => .error (.typeError "argument is not iterable")

def listGet {A : Type} (xs : List A) (n : Nat) : Except PyErr A :=
  match xs.get? n with
  | some x => .ok x
  | Option.none => .error (.indexError "list index out of range")

/-- `str.partition(":")` projected to the pieces the planner uses. -/
def partitionColon (s : String) : String × String :=
  match splitColonChars s.data with
  | [] => (s, "")
  | [x] => (.mk x, "")
  | x :: rest => (.mk x, String.intercalate ":" (rest.map String.mk))

/-- `str.rpartition(":")` projected likewise; without a separator the head
part is empty. -/
def rpartitionColon (s : String) : String × String :=
  match splitColonChars s.data with
  | [] => ("", s)
  | [_] => ("", s)
  | parts =>
      (String.intercalate ":" (parts.dropLast.map String.mk),
       .mk (parts.getLast!))

/-- `model.Interface` as the planner builds it: `name=ie.name`,
`version=ie.get("version", "latest")`, `roles=ie.role`. -/
structure InterfaceM : Type where
  name : PyVal
  version : PyVal
  roles : PyVal
  deriving DecidableEq

/-- `Interface.qual_name = f"{name}:{version}"`. -/
def InterfaceM.qualName (i : InterfaceM) : String :=
  pyToStr i.name ++ ":" ++ pyToStr i.version

/-- `model.Endpoint`.  The owning service is held by name: Python stores the
object reference, and the planner's services dict is keyed by the very same
`Service.name`. -/
structure EndpointM : Type where
  name : PyVal
  serviceName : PyVal
  interface : InterfaceM
  role : String
  data : PyFields
  deriving DecidableEq

/-- `Endpoint.qual_name = f"{service.name}:{name}({interface.name}:{role})"`. -/
def EndpointM.qualName (ep : EndpointM) : String :=
  pyToStr ep.serviceName ++ ":" ++ pyToStr ep.name ++ "("
    ++ pyToStr ep.interface.name ++ ":" ++ ep.role ++ ")"

/-- A reference to an Endpoint (Python: the object itself, aliased between a
Relation and its owning Service's endpoint dict). -/
structure EpRef : Type where
  serviceName : PyVal
  epName : PyVal
  deriving DecidableEq

/-- `model.Relation`: an endpoint list; `name`/`qual_name` are computed. -/
structure RelationM : Type where
  endpoints : List EpRef
  deriving DecidableEq

/-- `model.Service`: the component entity (shared with the store and with any
other service built from the same component — see `Entity.eid`), the resolved
runtime, the graph-level config, the endpoint dict (an `AttrAccess`, keyed by
endpoint name) and the relations list. -/
structure ServiceM : Type where
  name : PyVal
  entity : Entity
  runtime : Option RuntimeImpl
  config : PyVal
  endpoints : List (PyVal × EndpointM)
  relations : List RelationM
  deriving DecidableEq

/-- An object registered in the store.  Raw config documents are entities;
planner-registered Services are recorded by name and shared-entity id (their
live fields sit in the planner's services dict); Relations and RuntimeImpls
are recorded by their id. -/
inductive StoredObj : Type where
  | entity (e : Entity)
  | service (name : PyVal) (eid : Nat)
  | relation (name : String)
  | runtimeImpl (name : String)
  deriving DecidableEq

/-- A `Versions` document: an entity carrying a `versions` instance attribute,
as `plan` builds and stores them directly in the versions index. -/
structure VersionsDoc : Type where
  versions : PyVal
  srcRef : List SrcRef
  entity : Entity
  deriving DecidableEq

structure Store : Type where
  state : List (String × StoredObj)
  versionsIdx : List (String × VersionsDoc)
  deriving DecidableEq

/-- `Store.getId`: try `entity["name"]`/`entity["kind"]` (an `Entity`'s item
access returns `None` for a missing key), fall back to the `name`/`kind`
attributes of dataclass objects; the id is the f-string `f"{kind}:{name}"`. -/
def storedId : StoredObj → Except PyErr String
  | .entity e => do
      let n ← e.get "name" .none
      let k ← e.get "kind" .none
      .ok (pyToStr k ++ ":" ++ pyToStr n)
  | .service n _ => .ok ("Service:" ++ pyToStr n)
  | .relation n => .ok ("Relation:" ++ n)
  | .runtimeImpl n => .ok ("RuntimeImpl:" ++ n)

/-- `Store.add(entity)`: `self.__state[eid] = entity` — the previous object
under the same id, if any, is replaced. -/
def Store.add (st : Store) (obj : StoredObj) : Except PyErr Store :=
  match storedId obj with
  | .ok eid => .ok { st with state := aset st.state eid obj }
  | .error e => .error e

/-- The kind-named index access (`store.component.get(name)` etc.), see the
section comment: `Modelled from the spec:` lookup by `(kind, name)`. -/
def Store.byKind (st : Store) (kind : String) (name : String) : Option StoredObj :=
  alookup st.state (kind ++ ":" ++ name)

def Store.componentGet (st : Store) (cname : PyVal) : Option Entity :=
  match st.byKind "Component" (pyToStr cname) with
  | some (.entity e) => some e
  | _ => Option.none

def Store.runtimeSpec (st : Store) (rname : String) : Option Entity :=
  match st.byKind "Runtime" rname with
  | some (.entity e) => some e
  | _ => Option.none

/-- `store.interface.values()`: the entities of kind `Interface`, in
registration order. -/
def Store.interfaceEntities (st : Store) : List Entity :=
  st.state.filterMap (fun kv =>
    match kv.2 with
    | .entity e =>
        if e.view.lookup "kind" = some (.str "Interface") then some e else Option.none
    | _ => Option.none)

/-! ## Runtime resolution (`runtime.resolve`, `runtime.resolve_each`) -/

/-- `resolve_each(plugins)`: instantiate `_plugins[p["name"].lower()]` for
each plugin spec.  The module-global `_plugins` registry of plugin classes is
passed explicitly; instantiation yields the registered plugin value. -/
def resolveEachGo (registry : List (String × Plugin)) :
    List PyVal → Except PyErr (List Plugin)
  | [] => .ok []
  | p :: rest => do
      let n ← pyIndex p "name"
      let s ← asStr n (.attributeError "lower")
      match alookup registry (strLower s) with
      | some pl => do
          let tl ← resolveEachGo registry rest
          .ok (pl :: tl)
      | Option.none => .error (.keyError (strLower s))

/-- `runtime.resolve(runtime_name, store)`: consult the module-global
`_runtimes` memo (threaded as `cache`), else look the `Runtime` spec entity up
in the store (`KeyError` when absent — also for a non-string name, which can
never be a key of the runtime index), instantiate its plugins, cache the
assembled `RuntimeImpl` and register it in the store. -/
def resolveRuntime (rname : PyVal) (st : Store)
    (cache : List (String × RuntimeImpl)) (registry : List (String × Plugin)) :
    Except PyErr (RuntimeImpl × Store × List (String × RuntimeImpl)) :=
  match rname with
  | .str s =>
      match alookup cache s with
      | some rt => .ok (rt, st, cache)
      | Option.none =>
          match st.runtimeSpec s with
          | Option.none => .error (.keyError s)
          | some rspec => do
              let pluginsV ← rspec.attr "plugins"
              let items ← iterVals pluginsV
              let plugins ← resolveEachGo registry items
              let rt : RuntimeImpl := { name := s, plugins := plugins }
              let st2 ← st.add (.runtimeImpl s)
              .ok (rt, st2, aset cache s rt)
  | other => .error (.keyError (pyToStr other))

/-! ## The Graph Planner (`graph.plan`) -/

/-- The planner's loop state: the store, the `_runtimes` memo, and the
`services` / `components` / `relations` / `interface_impls` dicts of `plan`.
`nextEid` allocates identities for entities created during planning. -/
structure PlanSt : Type where
  store : Store
  cache : List (String × RuntimeImpl)
  services : List (PyVal × ServiceM)
  components : List (PyVal × Entity)
  relations : List (String × RelationM)
  interfaceImpls : List (PyVal × InterfaceM)
  nextEid : Nat
  deriving DecidableEq

/-- The static arguments of one `plan` invocation. -/
structure PlanArgs : Type where
  graphEntity : Entity
  environment : Entity
  runtime : PyVal
  registry : List (String × Plugin)
  deriving DecidableEq

def entUpdate (eid : Nat) (data : PyFields) (ref : SrcRef) (e : Entity) :
    Except PyErr Entity :=
  if e.eid = eid then e.addFacet data ref else .ok e

/-- `obj.add_facet(data, ref)` under Python aliasing: the entity object is
shared between the store and every service/component built from it, so the
facet lands on every copy carrying the same identity. -/
def PlanSt.addFacetEid (ps : PlanSt) (eid : Nat) (data : PyFields)
    (ref : SrcRef) : Except PyErr PlanSt := do
  let state ← ps.store.state.mapM (fun kv =>
    match kv.2 with
    | .entity e => do
        let e2 ← entUpdate eid data ref e
        pure (kv.1, StoredObj.entity e2)
    | o => pure (kv.1, o))
  let services ← ps.services.mapM (fun kv => do
    let e2 ← entUpdate eid data ref kv.2.entity
    pure (kv.1, { kv.2 with entity := e2 }))
  let components ← ps.components.mapM (fun kv => do
    let e2 ← entUpdate eid data ref kv.2
    pure (kv.1, e2))
  pure { ps with store := { ps.store with state := state },
                 services := services, components := components }

/-- Step 1 of `plan`: build the Interface registry from the store's
`Interface` entities. -/
def planInterfacesGo : List Entity → List (PyVal × InterfaceM) →
    Except PyErr (List (PyVal × InterfaceM))
  | [], acc => .ok acc
  | ie :: rest, acc => do
      let n ← ie.attr "name"
      let ver ← ie.get "version" (.str "latest")
      let roles ← ie.attr "role"
      planInterfacesGo rest (vset acc n { name := n, version := ver, roles := roles })

def planInterfaces (st : Store) : Except PyErr (List (PyVal × InterfaceM)) :=
  planInterfacesGo st.interfaceEntities []

/-- The endpoint loop of the service step: for each component-declared
endpoint, split `interface_name:role`, look the interface up in the registry —
the `AttrAccess(name=...)` fallback for an unregistered interface has no
`roles` key, so `utils.pick(iface.roles, ...)` raises `AttributeError` — check
the role exists (else `ConfigurationError`), and attach the endpoint under its
name. -/
def buildEndpointsGo (impls : List (PyVal × InterfaceM)) (sname : PyVal) :
    List PyVal → List (PyVal × EndpointM) →
    Except PyErr (List (PyVal × EndpointM))
  | [], acc => .ok acc
  | ep :: rest, acc => do
      let istr ← pyIndex ep "interface"
      let s ← asStr istr (.attributeError "partition")
      let pr := partitionColon s
      match vlookup impls (.str pr.1) with
      | Option.none => .error (.attributeError "roles")
      | some iface => do
          let r ← pick iface.roles [("name", .str pr.2)] .none
          if pyTruthy r then do
            let epName ← pyIndex ep "name"
            buildEndpointsGo impls sname rest (vset acc epName
              { name := epName, serviceName := sname, interface := iface,
                role := pr.2, data := .nil })
          else .error (.configurationError
            ("Interface not defined or missing expected role " ++ pr.2
              ++ " for " ++ pr.1))

/-- Step 2 of `plan`, one service spec: resolve the named component (a missing
component is the typed `ConfigurationError`), push the spec as a facet onto
the shared component entity, determine the runtime as
`spec.runtime ?? env.runtime ?? graph.runtime ?? default` resolving a string
through `resolve`, build the Service with its endpoints and register it. -/
def planServiceStep (args : PlanArgs) (ps : PlanSt) (spec : PyVal) :
    Except PyErr PlanSt := do
  let name ← pyDictGet spec "name" .none
  let cname ← pyDictGet spec "component" name
  match ps.store.componentGet cname with
  | Option.none => .error (.configurationError
      ("graph references unknown component " ++ pyToStr spec))
  | some comp0 => do
      let ref ← listGet args.graphEntity.srcRef 0
      let specFields ← asDictD spec
      let ps ← ps.addFacetEid comp0.eid specFields ref
      match ps.store.componentGet cname with
      | Option.none => .error (.keyError "component entry lost")
      | some comp => do
          let cEps ← comp.get "endpoints" (.list .nil)
          let envCfg ← args.environment.get "config" (.dict .nil)
          let envSvcs ← pyDictGet envCfg "services" (.dict .nil)
          let envconfig ← pyDictGetV envSvcs name (.dict .nil)
          let gRt ← args.graphEntity.get "runtime" args.runtime
          let eRt ← pyDictGet envconfig "runtime" gRt
          let srt ← pyDictGet spec "runtime" eRt
          let rts ←
            match srt with
            | .str s => do
                let r ← resolveRuntime (.str s) ps.store ps.cache args.registry
                pure (some r.1, r.2.1, r.2.2)
            | .none => pure (Option.none, ps.store, ps.cache)
            | _ => .error (.typeError
                "unsupported runtime value (the source would defer this failure to first use)")
          let ps := { ps with store := rts.2.1, cache := rts.2.2 }
          let config ← pyDictGet spec "config" (.dict .nil)
          let epItems ← iterVals cEps
          let eps ← buildEndpointsGo ps.interfaceImpls name epItems []
          let sv : ServiceM :=
            { name := name, entity := comp, runtime := rts.1, config := config,
              endpoints := eps, relations := [] }
          let st2 ← ps.store.add (.service name comp.eid)
          pure { ps with store := st2,
                         components := vset ps.components name comp,
                         services := vset ps.services name sv }

/-- The reference-resolution loop of the relation step: split each
`service:endpoint` reference, index the services dict (`KeyError` on an
unknown service name), and look the endpoint up — an endpoint that does not
resolve is only warned about and skipped; a resolved one contributes its
interface's qual-name to the `ifaces` set and itself to the endpoint list. -/
def resolveRefsGo (ps : PlanSt) :
    List PyVal → List String × List EpRef →
    Except PyErr (List String × List EpRef)
  | [], acc => .ok acc
  | refv :: rest, acc => do
      let s ← asStr refv (.attributeError "partition")
      let pr := partitionColon s
      match vlookup ps.services (.str pr.1) with
      | Option.none => .error (.keyError pr.1)
      | some sv =>
          match vlookup sv.endpoints (.str pr.2) with
          | Option.none => resolveRefsGo ps rest acc
          | some ep =>
              let q := ep.interface.qualName
              resolveRefsGo ps rest
                (if acc.1.contains q then acc.1 else acc.1 ++ [q],
                 acc.2 ++ [{ serviceName := ep.serviceName, epName := ep.name }])

def epQual (svs : List (PyVal × ServiceM)) (ref : EpRef) : Except PyErr String :=
  match vlookup svs ref.serviceName with
  | Option.none => .error (.keyError (pyToStr ref.serviceName))
  | some sv =>
      match vlookup sv.endpoints ref.epName with
      | Option.none => .error (.keyError (pyToStr ref.epName))
      | some ep => .ok ep.qualName

/-- `Relation.name`: the endpoint qual-names joined with a separator. -/
def relationName (svs : List (PyVal × ServiceM)) (r : RelationM) :
    Except PyErr String := do
  let quals ← r.endpoints.mapM (epQual svs)
  .ok (String.intercalate "<>" quals)

def appendRelToServices :
    List (PyVal × ServiceM) → List EpRef → RelationM →
    Except PyErr (List (PyVal × ServiceM))
  | svs, [], _ => .ok svs
  | svs, ep :: rest, r =>
      match vlookup svs ep.serviceName with
      | Option.none => .error (.keyError (pyToStr ep.serviceName))
      | some sv =>
          appendRelToServices
            (vset svs ep.serviceName { sv with relations := sv.relations ++ [r] })
            rest r

/-- Step 3 of `plan`, one declared relation: resolve the references, require
exactly one distinct interface among the resolved endpoints (else the typed
`ConfigurationError`), then build the Relation, append it to each
participating endpoint's owning Service `relations` list, and register it. -/
def planRelationStep (ps : PlanSt) (relation : PyVal) : Except PyErr PlanSt := do
  let items ← iterVals relation
  let acc ← resolveRefsGo ps items ([], [])
  if acc.1.length ≠ 1 then
    .error (.configurationError
      ("More than one interface used in relation " ++ pyToStr relation))
  else do
    let r : RelationM := { endpoints := acc.2 }
    let rname ← relationName ps.services r
    let ps := { ps with relations := aset ps.relations rname r }
    let services ← appendRelToServices ps.services acc.2 r
    let ps := { ps with services := services }
    let st ← ps.store.add (.relation rname)
    pure { ps with store := st }

def storedEid : StoredObj → Except PyErr Nat
  | .entity e => .ok e.eid
  | .service _ eid => .ok eid
  | _ => .error (.attributeError "add_facet")

/-- Step 4 of `plan`, one entry of one versions document: target a component
or service by qualified name (default kind `component`), and append an
`{image: ...}` facet to the target's entity — failing with
`ConfigurationError` for an unknown kind or target. -/
def planVersionStep (vd : VersionsDoc) (ps : PlanSt) (version : PyVal) :
    Except PyErr PlanSt := do
  let spec ← pyIndex version "name"
  let s ← asStr spec (.attributeError "rpartition")
  let pr := rpartitionColon s
  let kind := if pr.1 = "" then "component" else strLower pr.1
  if kind = "component" ∨ kind = "service" then do
    let image ← pyIndex version "image"
    let kindKey := if kind = "component" then "Component" else "Service"
    match alookup ps.store.state (kindKey ++ ":" ++ pr.2) with
    | Option.none => .error (.configurationError
        ("Versions file references " ++ kind ++ " " ++ pr.2 ++ " which isn't in graph"))
    | some obj => do
        let eid ← storedEid obj
        let ref ← listGet vd.srcRef 0
        ps.addFacetEid eid (.cons "image" image .nil) ref
  else .error (.configurationError
    ("Attempting to override version of kind " ++ kind))

def planVersionsDocStep (ps : PlanSt) (vd : VersionsDoc) :
    Except PyErr PlanSt := do
  let items ← iterVals vd.versions
  items.foldlM (planVersionStep vd) ps

/-- The tail of step 4: build the updated `Versions` document listing each
service's image and store it directly in the versions index. -/
def buildVersionsDoc (ps : PlanSt) : Except PyErr PlanSt := do
  let ent ← Entity.make ps.nextEid
    (.cons "name" (.str "versions") (.cons "kind" (.str "Versions") .nil))
    Option.none .pyNone
  let vlist ← ps.services.mapM (fun kv => do
    let img ← kv.2.entity.get "image" .none
    pure (PyVal.dict (.cons "name" kv.2.name (.cons "image" img .nil))))
  let doc : VersionsDoc :=
    { versions := .list (PyList.ofListV vlist), srcRef := ent.srcRef, entity := ent }
  pure { ps with
    store := { ps.store with versionsIdx := aset ps.store.versionsIdx "versions" doc },
    nextEid := ps.nextEid + 1 }

def planVersions (ps : PlanSt) : Except PyErr PlanSt := do
  let ps ← (ps.store.versionsIdx.map Prod.snd).foldlM planVersionsDocStep ps
  buildVersionsDoc ps


/-! ## Graph finalization (`graph.Graph.__post_init__`,
`model.Service.fini` / `validate`)

The ambient interpolation context (`config.get_context`, a process-wide
config/thread-local in the source whose store-index accessors are part of the
mid-refactor breakage) is `Modelled from the spec:` spec §9 directs the
context to be an explicit object carrying the environment, the runtime and the
per-call keyword objects, threaded through planner → graph objects →
interpolation.  Graph objects placed into the context are modelled opaquely
(`objPlaceholder`): only a brace reference could observe their structure, and
the embedding covers plain-name references, which the finalization of the
analysed inputs never contains. -/

def objPlaceholder (tag : String) : PyVal := .str ("<" ++ tag ++ ">")

/-- Plain `dict.update`: overwrite key by key. -/
def dictUpdate (base upd : PyFields) : PyFields :=
  go base upd
where
  go : PyFields → PyFields → PyFields
  | b, .nil => b
  | b, .cons k v t => go (b.set k v) t

/-- The planned graph: `Graph(entity, nodes, edges, runtime, environment,
interfaces, store)`.  `nodes` stays keyed by service name so that the
finalization pass can update services in place. -/
structure GraphM : Type where
  entity : Entity
  nodes : List (PyVal × ServiceM)
  edges : List (String × RelationM)
  runtime : RuntimeImpl
  environment : Entity
  interfaces : List (PyVal × InterfaceM)
  store : Store
  deriving DecidableEq

/-- Facet addition on a shared entity inside the finalized graph (aliases in
the nodes and the store state). -/
def GraphM.addFacetEid (g : GraphM) (eid : Nat) (data : PyFields)
    (ref : SrcRef) : Except PyErr GraphM := do
  let state ← g.store.state.mapM (fun kv =>
    match kv.2 with
    | .entity e => do
        let e2 ← entUpdate eid data ref e
        pure (kv.1, StoredObj.entity e2)
    | o => pure (kv.1, o))
  let nodes ← g.nodes.mapM (fun kv => do
    let e2 ← entUpdate eid data ref kv.2.entity
    pure (kv.1, { kv.2 with entity := e2 }))
  pure { g with store := { g.store with state := state }, nodes := nodes }

/-- `Service.get_relation_by_endpoint`: the first relation whose endpoint list
contains the endpoint (Python `in` hits on object identity). -/
def getRelationByEndpoint (sv : ServiceM) (ep : EndpointM) : Option RelationM :=
  sv.relations.find? (fun r =>
    r.endpoints.contains { serviceName := ep.serviceName, epName := ep.name })

/-- `Service._build_context_from_endpoints`: for every endpoint engaged in a
relation, expose `{name}_relation`, `{name}_local` and `{name}_remote`. -/
def buildEpCtx (sv : ServiceM) (ctx : PyFields) : PyFields :=
  sv.endpoints.foldl (fun c kv =>
    match getRelationByEndpoint sv kv.2 with
    | Option.none => c
    | some _ =>
        let n := pyToStr kv.2.name
        ((c.set (n ++ "_relation") (objPlaceholder "Relation")).set
          (n ++ "_local") (objPlaceholder "Endpoint")).set
          (n ++ "_remote") (objPlaceholder "Endpoint")) ctx

/-- `Service._context()`: merge the graph-level config with the environment's
per-service override, assemble the ambient context (environment, runtime, the
`service`/`this` objects and the environment config keys), update it with the
composed config and the endpoint context, alias `environment` to `env` and
re-point `environment` at the graph's Environment.  Returns `(context,
composed)`. -/
def serviceContext (g : GraphM) (sv : ServiceM) :
    Except PyErr (PyFields × PyVal) := do
  let envCfg ← g.environment.get "config" (.dict .nil)
  let envSvcs ← pyDictGet envCfg "services" (.dict .nil)
  let svcCfg ← pyDictGetV envSvcs sv.name (.dict .nil)
  let composed ← jsonMerge sv.config svcCfg
  let envCfgFields ← asDictD envCfg
  let base : PyFields :=
    .cons "environment" (objPlaceholder "Environment")
      (.cons "runtime" (objPlaceholder "Runtime") .nil)
  let kwargs := dictUpdate
    (.cons "service" (objPlaceholder "Service")
      (.cons "this" (objPlaceholder "Service") .nil)) envCfgFields
  let ctx0 ← jsonMergeFields base kwargs
  let composedF ← asDictD composed
  let ctx1 := dictUpdate ctx0 composedF
  let ctx2 := buildEpCtx sv ctx1
  let ctx3 :=
    if ctx2.hasKey "environment" then
      ctx2.set "env" ((ctx2.lookup "environment").getD .none)
    else ctx2
  .ok (ctx3.set "environment" (objPlaceholder "Environment"), composed)

/-- `Service.full_config(allow_missing)`: interpolate the composed config in
the service context. -/
def fullConfig (g : GraphM) (sv : ServiceM) (am : Bool) : Except PyErr PyVal := do
  let cc ← serviceContext g sv
  interpolate cc.2 cc.1 am

/-- `GraphObj._interpolate_entity`: interpolate the entity's serialized view
in the service context and push the result as an `<interpolated>` facet onto
the shared entity. -/
def interpolateEntity (g : GraphM) (sname : PyVal) : Except PyErr GraphM := do
  match vlookup g.nodes sname with
  | Option.none => .error (.keyError (pyToStr sname))
  | some sv => do
      let cc ← serviceContext g sv
      let dv ← interpolate sv.entity.serialized cc.1 false
      let df ← asDictD dv
      g.addFacetEid sv.entity.eid df (.strRef "<interpolated>")

/-- The env-level data loop of `_populate_endpoint_config`: entries without an
`endpoint` key become facets on the service's entity, attributed to the
environment's first provenance. -/
def envDataFacets (g : GraphM) (eid : Nat) : List PyVal → Except PyErr GraphM
  | [] => .ok g
  | cd :: rest => do
      let epn ← pyDictGet cd "endpoint" .none
      if pyTruthy epn then envDataFacets g eid rest
      else do
        let d ← pyDictGet cd "data" (.dict .nil)
        let df ← asDictD d
        let ref ← listGet g.environment.srcRef 0
        let g2 ← g.addFacetEid eid df ref
        envDataFacets g2 eid rest

/-- `Service._populate_endpoint_config`: for every endpoint, merge the
component-declared endpoint data with the environment's per-endpoint override
and update the endpoint's data dict; then apply env-level data entries as
facets; then interpolate the entity again. -/
def populateEpConfig (g : GraphM) (sname : PyVal) : Except PyErr GraphM := do
  match vlookup g.nodes sname with
  | Option.none => .error (.keyError (pyToStr sname))
  | some sv => do
      let envCfg ← g.environment.get "config" (.dict .nil)
      let envSvcs ← pyDictGet envCfg "services" (.dict .nil)
      let svcCfg ← pyDictGetV envSvcs sv.name (.dict .nil)
      let envData ← pyDictGet svcCfg "config" (.list .nil)
      let eps ← sv.endpoints.mapM (fun kv => do
        let envE ← pick envData [("endpoint", kv.2.name)] (.dict .nil)
        let env ← pyDictGet envE "data" (.dict .nil)
        let compEps ← sv.entity.attr "endpoints"
        let cdE ← pick compEps [("name", kv.2.name)] (.dict .nil)
        let cd ← pyDictGet cdE "data" (.dict .nil)
        let d ← jsonMerge cd env
        let df ← asDictD d
        pure (kv.1, { kv.2 with data := dictUpdate kv.2.data df }))
      let g := { g with nodes := vset g.nodes sname { sv with endpoints := eps } }
      let envItems ← iterVals envData
      let g ← envDataFacets g sv.entity.eid envItems
      interpolateEntity g sname

/-- `Service.fini`: `GraphObj.fini` (entity interpolation) followed by
endpoint-config population. -/
def serviceFini (g : GraphM) (sname : PyVal) : Except PyErr GraphM := do
  let g ← interpolateEntity g sname
  populateEpConfig g sname

/-- `Relation.get_remote(service)` loop: remember the last endpoint of another
service, break once the local service was seen and a remote is at hand; a
service not in the relation raises `ValueError`; the remote may legitimately
come out `None` for a single-endpoint relation. -/
def relGetRemoteGo : List EpRef → PyVal → Bool → Option EpRef →
    Bool × Option EpRef
  | [], _, found, remote => (found, remote)
  | ep :: rest, sname, found0, remote0 =>
      let found := if ep.serviceName = sname then true else found0
      let remote := if ep.serviceName = sname then remote0 else some ep
      if found ∧ remote.isSome then (found, remote)
      else relGetRemoteGo rest sname found remote

def relGetLocal (r : RelationM) (sname : PyVal) : Except PyErr EpRef :=
  match r.endpoints.find? (fun ep => ep.serviceName = sname) with
  | some ep => .ok ep
  | Option.none => .error (.valueError "Service not in relation")

def derefEp (g : GraphM) (ref : EpRef) : Except PyErr EndpointM :=
  match vlookup g.nodes ref.serviceName with
  | Option.none => .error (.keyError (pyToStr ref.serviceName))
  | some sv =>
      match vlookup sv.endpoints ref.epName with
      | Option.none => .error (.keyError (pyToStr ref.epName))
      | some ep => .ok ep

/-- `Endpoint.normalize_values(data, secrets)`: map the role's value specs to
endpoint key/value pairs, keeping or omitting secret-flagged entries. -/
def normalizeValuesGo (ep : EndpointM) (secrets : Bool) :
    List PyVal → PyFields → Except PyErr PyFields
  | [], acc => .ok acc
  | spec :: rest, acc => do
      let n ← pyIndex spec "name"
      let isSecret ← pyDictGet spec "secret" (.bool false)
      if (pyTruthy isSecret ∧ secrets = false)
          ∨ (pyTruthy isSecret = false ∧ secrets = true) then
        normalizeValuesGo ep secrets rest acc
      else do
        let dflt ← pyDictGet spec "default" .none
        let v := (ep.data.lookup (pyToStr n)).getD dflt
        normalizeValuesGo ep secrets rest (acc.set (pyToStr n) v)

/-- `Endpoint.config`: the role's contract dict from the interface (or an
empty dict when the role is not found). -/
def epConfig (ep : EndpointM) : Except PyErr PyVal := do
  let c ← pick ep.interface.roles [("name", .str ep.role)] .none
  .ok (if pyTruthy c then c else .dict .nil)

def epProvides (ep : EndpointM) : Except PyErr PyVal := do
  let c ← epConfig ep
  pyDictGet c "provides" (.list .nil)

/-- `Service.full_relation(relation, secrets)`: the remote endpoint's
provided (or secret) values plus the shared interface name and the remote
service name, keyed by the local endpoint's name, interpolated in a context of
graph objects. -/
def fullRelation (g : GraphM) (svName : PyVal) (r : RelationM)
    (secrets : Bool) : Except PyErr PyVal := do
  let fr := relGetRemoteGo r.endpoints svName false Option.none
  if fr.1 = false then .error (.valueError "Service not in relation")
  else
    match fr.2 with
    | Option.none => .error (.attributeError "provided")
    | some remoteRef => do
        let localRef ← relGetLocal r svName
        let remote ← derefEp g remoteRef
        let localEp ← derefEp g localRef
        let ctx : PyFields := dictUpdate .nil
          (.cons "service" (objPlaceholder "Service")
            (.cons "local" (objPlaceholder "Endpoint")
              (.cons "this" (objPlaceholder "Service")
                (.cons "relation" (objPlaceholder "Relation")
                  (.cons "remote" (objPlaceholder "Endpoint")
                    (.cons "graph" (objPlaceholder "Graph")
                      (.cons "runtime" (objPlaceholder "Runtime") .nil)))))))
        let provides ← epProvides remote
        let provItems ← iterVals provides
        let base ← normalizeValuesGo remote secrets provItems .nil
        let base := (base.set "interface" (.str localEp.interface.qualName)).set
          "service_name" remote.serviceName
        let data : PyFields := .cons (pyToStr localEp.name) (.dict base) .nil
        interpolate (.dict data) ctx false

def typeMatches (v : PyVal) (t : String) : Except PyErr Bool :=
  match t with
  | "str" => .ok (match v with | .str _ => true | _ => false)
  | "string" => .ok (match v with | .str _ => true | _ => false)
  | "int" => .ok (match v with | .int _ => true | .bool _ => true | _ => false)
  | "number" => .ok (match v with | .int _ => true | .bool _ => true | _ => false)
  | _ => .error (.keyError t)

/-- The `provides`-contract loop of `Interface.validate`: every declared value
must be present on the producing endpoint and of the declared type. -/
def checkProvides (vals : PyVal) (epName : PyVal) :
    List PyVal → Except PyErr Unit
  | [] => .ok ()
  | spec :: rest => do
      let n ← pyIndex spec "name"
      let side ← pyIndex vals (pyToStr epName)
      let v ← pyDictGetV side n .none
      let tRaw ← pyDictGet spec "type" (.str "str")
      let t ← asStr tRaw (.keyError (pyToStr tRaw))
      let ok ← typeMatches v t
      if v = .none ∨ ok = false then
        .error (.valueError ("Missing expected value " ++ pyToStr n))
      else checkProvides vals epName rest

/-- The required-environment-variable loop shared by `Service.validate` and
`Endpoint.validate` (`ValueError`s in the source, with an XXX that they should
become validation errors). -/
def checkRequires (env : PyVal) : List PyVal → Except PyErr Unit
  | [] => .ok ()
  | key :: rest => do
      let v ← pick env [("name", key)] .none
      if pyTruthy v = false then
        .error (.valueError ("Missing required ENV variable " ++ pyToStr key))
      else do
        let val ← pyDictGet v "value" .none
        if pyTruthy val = false then
          .error (.valueError ("Empty required environment variable " ++ pyToStr key))
        else checkRequires env rest

/-- `Endpoint.validate` followed by `Interface.validate(service, endpoint)`:
check the component's endpoint environment requirements against the service's
full config, then locate the relation, take the remote endpoint (`None` for a
single-endpoint relation, making the subsequent `ep.service` access an
`AttributeError`), materialize the remote's full relation values (public and
secret) and check the role's `provides` contract. -/
def validateEndpoint (g : GraphM) (ref : EpRef) : Except PyErr Unit := do
  let ep ← derefEp g ref
  match vlookup g.nodes ref.serviceName with
  | Option.none => .error (.keyError (pyToStr ref.serviceName))
  | some sv => do
      let compEps ← sv.entity.attr "endpoints"
      let epspec ← pick compEps [("name", ep.name)] .none
      let envspec ← pyDictGet epspec "environment" (.dict .nil)
      let requires ← pyDictGet envspec "requires" (.list .nil)
      let config ← fullConfig g sv false
      let envList ← pyDictGet config "environment" (.list .nil)
      let reqItems ← iterVals requires
      checkRequires envList reqItems
      match getRelationByEndpoint sv ep with
      | Option.none => .error (.attributeError "get_remote")
      | some rel => do
          let fr := relGetRemoteGo rel.endpoints ref.serviceName false Option.none
          if fr.1 = false then .error (.valueError "Service not in relation")
          else
            match fr.2 with
            | Option.none => .error (.attributeError "service")
            | some rref => do
                let vals ← fullRelation g rref.serviceName rel false
                let priv ← fullRelation g rref.serviceName rel true
                let vals2 ← jsonMerge vals priv
                let role ← pick ep.interface.roles [("name", .str ep.role)] .none
                let specs ← pyDictGet role "provides" (.list .nil)
                let specItems ← iterVals specs
                checkProvides vals2 ep.name specItems

/-- `Service.validate`: validate each relation (which validates every
endpoint of the relation), check the exposed endpoint names, then the
component-level environment requirements against the full config. -/
def validateService (g : GraphM) (sname : PyVal) : Except PyErr Unit := do
  match vlookup g.nodes sname with
  | Option.none => .error (.keyError (pyToStr sname))
  | some sv => do
      let _ ← sv.relations.mapM (fun r => r.endpoints.mapM (validateEndpoint g))
      let exposed ← sv.entity.get "expose" (.list .nil)
      let exl ← iterVals exposed
      let _ ← exl.mapM (fun epname =>
        if (vlookup sv.endpoints epname).isSome then pure ()
        else Except.error (.configurationError
          ("Unable to expose unknown endpoint " ++ pyToStr epname
            ++ " in service " ++ pyToStr sv.name)))
      let envspec ← sv.entity.get "environment" (.dict .nil)
      let requires ← pyDictGet envspec "requires" (.list .nil)
      let config ← fullConfig g sv false
      let envList ← pyDictGet config "environment" (.list .nil)
      let reqItems ← iterVals requires
      checkRequires envList reqItems

/-- The `Graph(...)` construction of step 5 of `plan`: resolve the default
runtime from the graph entity or the `runtime` argument and assemble the
dataclass fields. -/
def buildGraphInit (args : PlanArgs) (ps : PlanSt) : Except PyErr GraphM := do
  let gRt ← args.graphEntity.get "runtime" args.runtime
  let rr ← resolveRuntime gRt ps.store ps.cache args.registry
  .ok { entity := args.graphEntity, nodes := ps.services, edges := ps.relations,
        runtime := rr.1, environment := args.environment,
        interfaces := ps.interfaceImpls, store := rr.2.1 }

/-- Step 5 of `plan`: construct the Graph, then run `__post_init__`'s two
passes over the nodes: every service's `fini`, then every service's
`validate`. -/
def buildGraph (args : PlanArgs) (ps : PlanSt) : Except PyErr GraphM := do
  let g ← buildGraphInit args ps
  let names := g.nodes.map Prod.fst
  let g ← names.foldlM serviceFini g
  let _ ← names.mapM (validateService g)
  .ok g

/-- `graph.plan(graph_entity, store, environment, runtime)`.  The module
globals of the source (`_plugins` plugin registry, `_runtimes` memo) are
explicit: the registry is an argument and the memo starts empty for the
invocation; `nextEid` allocates identities for entities created while
planning. -/
def plan (graphEntity : Entity) (store0 : Store) (environment : Entity)
    (runtimeArg : PyVal) (registry : List (String × Plugin)) (nextEid : Nat) :
    Except PyErr GraphM := do
  let impls ← planInterfaces store0
  let args : PlanArgs :=
    { graphEntity := graphEntity, environment := environment,
      runtime := runtimeArg, registry := registry }
  let ps0 : PlanSt :=
    { store := store0, cache := [], services := [], components := [],
      relations := [], interfaceImpls := impls, nextEid := nextEid }
  let svcSpecs ← graphEntity.get "services" (.list .nil)
  let svcItems ← iterVals svcSpecs
  let ps1 ← svcItems.foldlM (planServiceStep args) ps0
  let relSpecs ← graphEntity.get "relations" (.list .nil)
  let relItems ← iterVals relSpecs
  let ps2 ← relItems.foldlM planRelationStep ps1
  let ps3 ← planVersions ps2
  buildGraph args ps3


/-! ## Concrete configurations used by the witnesses and counterexamples -/

def pfields : List (String × PyVal) → PyFields
  | [] => .nil
  | (k, v) :: t => .cons k v (pfields t)

def pyd (l : List (String × PyVal)) : PyVal := .dict (pfields l)
def pyl (l : List PyVal) : PyVal := .list (PyList.ofListV l)

/-- A concretely-built entity (the fallback branch is dead for every facet
used below; each construction is a successful `Entity(data, src_ref=ref)`). -/
def entOf (eid : Nat) (data : List (String × PyVal)) (ref : SrcRef) : Entity :=
  match Entity.make eid (pfields data) Option.none ref with
  | .ok e => e
  | .error _ => Entity.new eid Option.none

/-- Interface `i` v9 with roles `c` and `s`. -/
def ifaceEnt : Entity := entOf 1
  [("name", .str "i"), ("kind", .str "Interface"), ("version", .str "9"),
   ("role", pyl [pyd [("name", .str "c")], pyd [("name", .str "s")]])]
  (.strRef "y")

/-- Component `a` with endpoint `e` on `i:c`. -/
def compAEnt : Entity := entOf 2
  [("name", .str "a"), ("kind", .str "Component"),
   ("endpoints", pyl [pyd [("name", .str "e"), ("interface", .str "i:c")]])]
  (.strRef "y")

/-- Component `b` with endpoint `f` on `i:s` (and no endpoint `z`). -/
def compBEnt : Entity := entOf 3
  [("name", .str "b"), ("kind", .str "Component"),
   ("endpoints", pyl [pyd [("name", .str "f"), ("interface", .str "i:s")]])]
  (.strRef "y")

/-- Runtime spec `r` with no plugins. -/
def rtSpecEnt : Entity := entOf 4
  [("name", .str "r"), ("kind", .str "Runtime"), ("plugins", pyl [])]
  (.strRef "y")

/-- A graph whose single declared relation carries the dangling endpoint
reference `b:z` alongside two references that resolve to endpoints sharing
interface `i`. -/
def graphEnt1 : Entity := entOf 5
  [("name", .str "g"), ("kind", .str "Graph"), ("runtime", .str "r"),
   ("services", pyl [pyd [("name", .str "a")], pyd [("name", .str "b")]]),
   ("relations", pyl [pyl [.str "a:e", .str "b:f", .str "b:z"]])]
  (.strRef "y")

/-- An environment entity with no config overrides. -/
def envEnt : Entity := entOf 6
  [("name", .str "d"), ("kind", .str "Environment")]
  (.strRef "y")

def storeOf (es : List Entity) : Store :=
  match es.foldlM (fun (st : Store) e => st.add (.entity e)) ⟨[], []⟩ with
  | .ok st => st
  | .error _ => ⟨[], []⟩

def store1 : Store := storeOf [ifaceEnt, compAEnt, compBEnt, rtSpecEnt]

/-- A graph referencing a component absent from the store. -/
def graphEntBad : Entity := entOf 7
  [("name", .str "g2"), ("kind", .str "Graph"), ("runtime", .str "r"),
   ("services", pyl [pyd [("name", .str "a"), ("component", .str "q")]])]
  (.strRef "y")


/-! ### C1 staged concrete evaluation literals -/

def implsLit : List (PyVal × InterfaceM) := [((.str "i"), ⟨(.str "i"), (.str "9"), (.list (.cons (.dict (.cons "name" (.str "c") (.nil))) (.cons (.dict (.cons "name" (.str "s") (.nil))) (.nil))))⟩)]

def ps0Lit : PlanSt := ⟨store1, [], [], [], [], implsLit, 9⟩

def psSLit : PlanSt := ⟨⟨[("Interface:i", (.entity ⟨1, [(.cons "name" (.str "i") (.cons "kind" (.str "Interface") (.cons "version" (.str "9") (.cons "role" (.list (.cons (.dict (.cons "name" (.str "c") (.nil))) (.cons (.dict (.cons "name" (.str "s") (.nil))) (.nil)))) (.nil))))), (.nil)], [(.pathRef "y")], (.cons "name" (.str "i") (.cons "kind" (.str "Interface") (.cons "version" (.str "9") (.cons "role" (.list (.cons (.dict (.cons "name" (.str "c") (.nil))) (.cons (.dict (.cons "name" (.str "s") (.nil))) (.nil)))) (.nil))))), Option.none⟩)), ("Component:a", (.entity ⟨2, [(.cons "name" (.str "a") (.nil)), (.cons "name" (.str "a") (.cons "kind" (.str "Component") (.cons "endpoints" (.list (.cons (.dict (.cons "name" (.str "e") (.cons "interface" (.str "i:c") (.nil)))) (.nil))) (.nil)))), (.nil)], [(.pathRef "y"), (.pathRef "y")], (.cons "name" (.str "a") (.cons "kind" (.str "Component") (.cons "endpoints" (.list (.cons (.dict (.cons "name" (.str "e") (.cons "interface" (.str "i:c") (.nil)))) (.nil))) (.nil)))), Option.none⟩)), ("Component:b", (.entity ⟨3, [(.cons "name" (.str "b") (.nil)), (.cons "name" (.str "b") (.cons "kind" (.str "Component") (.cons "endpoints" (.list (.cons (.dict (.cons "name" (.str "f") (.cons "interface" (.str "i:s") (.nil)))) (.nil))) (.nil)))), (.nil)], [(.pathRef "y"), (.pathRef "y")], (.cons "name" (.str "b") (.cons "kind" (.str "Component") (.cons "endpoints" (.list (.cons (.dict (.cons "name" (.str "f") (.cons "interface" (.str "i:s") (.nil)))) (.nil))) (.nil)))), Option.none⟩)), ("Runtime:r", (.entity ⟨4, [(.cons "name" (.str "r") (.cons "kind" (.str "Runtime") (.cons "plugins" (.list (.nil)) (.nil)))), (.nil)], [(.pathRef "y")], (.cons "name" (.str "r") (.cons "kind" (.str "Runtime") (.cons "plugins" (.list (.nil)) (.nil)))), Option.none⟩)), ("RuntimeImpl:r", (.runtimeImpl "r")), ("Service:a", (.service (.str "a") 2)), ("Service:b", (.service (.str "b") 3))], []⟩, [("r", ⟨"r", []⟩)], [((.str "a"), ⟨(.str "a"), ⟨2, [(.cons "name" (.str "a") (.nil)), (.cons "name" (.str "a") (.cons "kind" (.str "Component") (.cons "endpoints" (.list (.cons (.dict (.cons "name" (.str "e") (.cons "interface" (.str "i:c") (.nil)))) (.nil))) (.nil)))), (.nil)], [(.pathRef "y"), (.pathRef "y")], (.cons "name" (.str "a") (.cons "kind" (.str "Component") (.cons "endpoints" (.list (.cons (.dict (.cons "name" (.str "e") (.cons "interface" (.str "i:c") (.nil)))) (.nil))) (.nil)))), Option.none⟩, (some ⟨"r", []⟩), (.dict (.nil)), [((.str "e"), ⟨(.str "e"), (.str "a"), ⟨(.str "i"), (.str "9"), (.list (.cons (.dict (.cons "name" (.str "c") (.nil))) (.cons (.dict (.cons "name" (.str "s") (.nil))) (.nil))))⟩, "c", (.nil)⟩)], []⟩), ((.str "b"), ⟨(.str "b"), ⟨3, [(.cons "name" (.str "b") (.nil)), (.cons "name" (.str "b") (.cons "kind" (.str "Component") (.cons "endpoints" (.list (.cons (.dict (.cons "name" (.str "f") (.cons "interface" (.str "i:s") (.nil)))) (.nil))) (.nil)))), (.nil)], [(.pathRef "y"), (.pathRef "y")], (.cons "name" (.str "b") (.cons "kind" (.str "Component") (.cons "endpoints" (.list (.cons (.dict (.cons "name" (.str "f") (.cons "interface" (.str "i:s") (.nil)))) (.nil))) (.nil)))), Option.none⟩, (some ⟨"r", []⟩), (.dict (.nil)), [((.str "f"), ⟨(.str "f"), (.str "b"), ⟨(.str "i"), (.str "9"), (.list (.cons (.dict (.cons "name" (.str "c") (.nil))) (.cons (.dict (.cons "name" (.str "s") (.nil))) (.nil))))⟩, "s", (.nil)⟩)], []⟩)], [((.str "a"), ⟨2, [(.cons "name" (.str "a") (.nil)), (.cons "name" (.str "a") (.cons "kind" (.str "Component") (.cons "endpoints" (.list (.cons (.dict (.cons "name" (.str "e") (.cons "interface" (.str "i:c") (.nil)))) (.nil))) (.nil)))), (.nil)], [(.pathRef "y"), (.pathRef "y")], (.cons "name" (.str "a") (.cons "kind" (.str "Component") (.cons "endpoints" (.list (.cons (.dict (.cons "name" (.str "e") (.cons "interface" (.str "i:c") (.nil)))) (.nil))) (.nil)))), Option.none⟩), ((.str "b"), ⟨3, [(.cons "name" (.str "b") (.nil)), (.cons "name" (.str "b") (.cons "kind" (.str "Component") (.cons "endpoints" (.list (.cons (.dict (.cons "name" (.str "f") (.cons "interface" (.str "i:s") (.nil)))) (.nil))) (.nil)))), (.nil)], [(.pathRef "y"), (.pathRef "y")], (.cons "name" (.str "b") (.cons "kind" (.str "Component") (.cons "endpoints" (.list (.cons (.dict (.cons "name" (.str "f") (.cons "interface" (.str "i:s") (.nil)))) (.nil))) (.nil)))), Option.none⟩)], [], [((.str "i"), ⟨(.str "i"), (.str "9"), (.list (.cons (.dict (.cons "name" (.str "c") (.nil))) (.cons (.dict (.cons "name" (.str "s") (.nil))) (.nil))))⟩)], 9⟩

def psRLit : PlanSt := ⟨⟨[("Interface:i", (.entity ⟨1, [(.cons "name" (.str "i") (.cons "kind" (.str "Interface") (.cons "version" (.str "9") (.cons "role" (.list (.cons (.dict (.cons "name" (.str "c") (.nil))) (.cons (.dict (.cons "name" (.str "s") (.nil))) (.nil)))) (.nil))))), (.nil)], [(.pathRef "y")], (.cons "name" (.str "i") (.cons "kind" (.str "Interface") (.cons "version" (.str "9") (.cons "role" (.list (.cons (.dict (.cons "name" (.str "c") (.nil))) (.cons (.dict (.cons "name" (.str "s") (.nil))) (.nil)))) (.nil))))), Option.none⟩)), ("Component:a", (.entity ⟨2, [(.cons "name" (.str "a") (.nil)), (.cons "name" (.str "a") (.cons "kind" (.str "Component") (.cons "endpoints" (.list (.cons (.dict (.cons "name" (.str "e") (.cons "interface" (.str "i:c") (.nil)))) (.nil))) (.nil)))), (.nil)], [(.pathRef "y"), (.pathRef "y")], (.cons "name" (.str "a") (.cons "kind" (.str "Component") (.cons "endpoints" (.list (.cons (.dict (.cons "name" (.str "e") (.cons "interface" (.str "i:c") (.nil)))) (.nil))) (.nil)))), Option.none⟩)), ("Component:b", (.entity ⟨3, [(.cons "name" (.str "b") (.nil)), (.cons "name" (.str "b") (.cons "kind" (.str "Component") (.cons "endpoints" (.list (.cons (.dict (.cons "name" (.str "f") (.cons "interface" (.str "i:s") (.nil)))) (.nil))) (.nil)))), (.nil)], [(.pathRef "y"), (.pathRef "y")], (.cons "name" (.str "b") (.cons "kind" (.str "Component") (.cons "endpoints" (.list (.cons (.dict (.cons "name" (.str "f") (.cons "interface" (.str "i:s") (.nil)))) (.nil))) (.nil)))), Option.none⟩)), ("Runtime:r", (.entity ⟨4, [(.cons "name" (.str "r") (.cons "kind" (.str "Runtime") (.cons "plugins" (.list (.nil)) (.nil)))), (.nil)], [(.pathRef "y")], (.cons "name" (.str "r") (.cons "kind" (.str "Runtime") (.cons "plugins" (.list (.nil)) (.nil)))), Option.none⟩)), ("RuntimeImpl:r", (.runtimeImpl "r")), ("Service:a", (.service (.str "a") 2)), ("Service:b", (.service (.str "b") 3)), ("Relation:a:e(i:c)<>b:f(i:s)", (.relation "a:e(i:c)<>b:f(i:s)"))], []⟩, [("r", ⟨"r", []⟩)], [((.str "a"), ⟨(.str "a"), ⟨2, [(.cons "name" (.str "a") (.nil)), (.cons "name" (.str "a") (.cons "kind" (.str "Component") (.cons "endpoints" (.list (.cons (.dict (.cons "name" (.str "e") (.cons "interface" (.str "i:c") (.nil)))) (.nil))) (.nil)))), (.nil)], [(.pathRef "y"), (.pathRef "y")], (.cons "name" (.str "a") (.cons "kind" (.str "Component") (.cons "endpoints" (.list (.cons (.dict (.cons "name" (.str "e") (.cons "interface" (.str "i:c") (.nil)))) (.nil))) (.nil)))), Option.none⟩, (some ⟨"r", []⟩), (.dict (.nil)), [((.str "e"), ⟨(.str "e"), (.str "a"), ⟨(.str "i"), (.str "9"), (.list (.cons (.dict (.cons "name" (.str "c") (.nil))) (.cons (.dict (.cons "name" (.str "s") (.nil))) (.nil))))⟩, "c", (.nil)⟩)], [⟨[⟨(.str "a"), (.str "e")⟩, ⟨(.str "b"), (.str "f")⟩]⟩]⟩), ((.str "b"), ⟨(.str "b"), ⟨3, [(.cons "name" (.str "b") (.nil)), (.cons "name" (.str "b") (.cons "kind" (.str "Component") (.cons "endpoints" (.list (.cons (.dict (.cons "name" (.str "f") (.cons "interface" (.str "i:s") (.nil)))) (.nil))) (.nil)))), (.nil)], [(.pathRef "y"), (.pathRef "y")], (.cons "name" (.str "b") (.cons "kind" (.str "Component") (.cons "endpoints" (.list (.cons (.dict (.cons "name" (.str "f") (.cons "interface" (.str "i:s") (.nil)))) (.nil))) (.nil)))), Option.none⟩, (some ⟨"r", []⟩), (.dict (.nil)), [((.str "f"), ⟨(.str "f"), (.str "b"), ⟨(.str "i"), (.str "9"), (.list (.cons (.dict (.cons "name" (.str "c") (.nil))) (.cons (.dict (.cons "name" (.str "s") (.nil))) (.nil))))⟩, "s", (.nil)⟩)], [⟨[⟨(.str "a"), (.str "e")⟩, ⟨(.str "b"), (.str "f")⟩]⟩]⟩)], [((.str "a"), ⟨2, [(.cons "name" (.str "a") (.nil)), (.cons "name" (.str "a") (.cons "kind" (.str "Component") (.cons "endpoints" (.list (.cons (.dict (.cons "name" (.str "e") (.cons "interface" (.str "i:c") (.nil)))) (.nil))) (.nil)))), (.nil)], [(.pathRef "y"), (.pathRef "y")], (.cons "name" (.str "a") (.cons "kind" (.str "Component") (.cons "endpoints" (.list (.cons (.dict (.cons "name" (.str "e") (.cons "interface" (.str "i:c") (.nil)))) (.nil))) (.nil)))), Option.none⟩), ((.str "b"), ⟨3, [(.cons "name" (.str "b") (.nil)), (.cons "name" (.str "b") (.cons "kind" (.str "Component") (.cons "endpoints" (.list (.cons (.dict (.cons "name" (.str "f") (.cons "interface" (.str "i:s") (.nil)))) (.nil))) (.nil)))), (.nil)], [(.pathRef "y"), (.pathRef "y")], (.cons "name" (.str "b") (.cons "kind" (.str "Component") (.cons "endpoints" (.list (.cons (.dict (.cons "name" (.str "f") (.cons "interface" (.str "i:s") (.nil)))) (.nil))) (.nil)))), Option.none⟩)], [("a:e(i:c)<>b:f(i:s)", ⟨[⟨(.str "a"), (.str "e")⟩, ⟨(.str "b"), (.str "f")⟩]⟩)], [((.str "i"), ⟨(.str "i"), (.str "9"), (.list (.cons (.dict (.cons "name" (.str "c") (.nil))) (.cons (.dict (.cons "name" (.str "s") (.nil))) (.nil))))⟩)], 9⟩

def psVLit : PlanSt := ⟨⟨[("Interface:i", (.entity ⟨1, [(.cons "name" (.str "i") (.cons "kind" (.str "Interface") (.cons "version" (.str "9") (.cons "role" (.list (.cons (.dict (.cons "name" (.str "c") (.nil))) (.cons (.dict (.cons "name" (.str "s") (.nil))) (.nil)))) (.nil))))), (.nil)], [(.pathRef "y")], (.cons "name" (.str "i") (.cons "kind" (.str "Interface") (.cons "version" (.str "9") (.cons "role" (.list (.cons (.dict (.cons "name" (.str "c") (.nil))) (.cons (.dict (.cons "name" (.str "s") (.nil))) (.nil)))) (.nil))))), Option.none⟩)), ("Component:a", (.entity ⟨2, [(.cons "name" (.str "a") (.nil)), (.cons "name" (.str "a") (.cons "kind" (.str "Component") (.cons "endpoints" (.list (.cons (.dict (.cons "name" (.str "e") (.cons "interface" (.str "i:c") (.nil)))) (.nil))) (.nil)))), (.nil)], [(.pathRef "y"), (.pathRef "y")], (.cons "name" (.str "a") (.cons "kind" (.str "Component") (.cons "endpoints" (.list (.cons (.dict (.cons "name" (.str "e") (.cons "interface" (.str "i:c") (.nil)))) (.nil))) (.nil)))), Option.none⟩)), ("Component:b", (.entity ⟨3, [(.cons "name" (.str "b") (.nil)), (.cons "name" (.str "b") (.cons "kind" (.str "Component") (.cons "endpoints" (.list (.cons (.dict (.cons "name" (.str "f") (.cons "interface" (.str "i:s") (.nil)))) (.nil))) (.nil)))), (.nil)], [(.pathRef "y"), (.pathRef "y")], (.cons "name" (.str "b") (.cons "kind" (.str "Component") (.cons "endpoints" (.list (.cons (.dict (.cons "name" (.str "f") (.cons "interface" (.str "i:s") (.nil)))) (.nil))) (.nil)))), Option.none⟩)), ("Runtime:r", (.entity ⟨4, [(.cons "name" (.str "r") (.cons "kind" (.str "Runtime") (.cons "plugins" (.list (.nil)) (.nil)))), (.nil)], [(.pathRef "y")], (.cons "name" (.str "r") (.cons "kind" (.str "Runtime") (.cons "plugins" (.list (.nil)) (.nil)))), Option.none⟩)), ("RuntimeImpl:r", (.runtimeImpl "r")), ("Service:a", (.service (.str "a") 2)), ("Service:b", (.service (.str "b") 3)), ("Relation:a:e(i:c)<>b:f(i:s)", (.relation "a:e(i:c)<>b:f(i:s)"))], [("versions", ⟨(.list (.cons (.dict (.cons "name" (.str "a") (.cons "image" (.none) (.nil)))) (.cons (.dict (.cons "name" (.str "b") (.cons "image" (.none) (.nil)))) (.nil)))), [(.pyNone)], ⟨9, [(.cons "name" (.str "versions") (.cons "kind" (.str "Versions") (.nil))), (.nil)], [(.pyNone)], (.cons "name" (.str "versions") (.cons "kind" (.str "Versions") (.nil))), Option.none⟩⟩)]⟩, [("r", ⟨"r", []⟩)], [((.str "a"), ⟨(.str "a"), ⟨2, [(.cons "name" (.str "a") (.nil)), (.cons "name" (.str "a") (.cons "kind" (.str "Component") (.cons "endpoints" (.list (.cons (.dict (.cons "name" (.str "e") (.cons "interface" (.str "i:c") (.nil)))) (.nil))) (.nil)))), (.nil)], [(.pathRef "y"), (.pathRef "y")], (.cons "name" (.str "a") (.cons "kind" (.str "Component") (.cons "endpoints" (.list (.cons (.dict (.cons "name" (.str "e") (.cons "interface" (.str "i:c") (.nil)))) (.nil))) (.nil)))), Option.none⟩, (some ⟨"r", []⟩), (.dict (.nil)), [((.str "e"), ⟨(.str "e"), (.str "a"), ⟨(.str "i"), (.str "9"), (.list (.cons (.dict (.cons "name" (.str "c") (.nil))) (.cons (.dict (.cons "name" (.str "s") (.nil))) (.nil))))⟩, "c", (.nil)⟩)], [⟨[⟨(.str "a"), (.str "e")⟩, ⟨(.str "b"), (.str "f")⟩]⟩]⟩), ((.str "b"), ⟨(.str "b"), ⟨3, [(.cons "name" (.str "b") (.nil)), (.cons "name" (.str "b") (.cons "kind" (.str "Component") (.cons "endpoints" (.list (.cons (.dict (.cons "name" (.str "f") (.cons "interface" (.str "i:s") (.nil)))) (.nil))) (.nil)))), (.nil)], [(.pathRef "y"), (.pathRef "y")], (.cons "name" (.str "b") (.cons "kind" (.str "Component") (.cons "endpoints" (.list (.cons (.dict (.cons "name" (.str "f") (.cons "interface" (.str "i:s") (.nil)))) (.nil))) (.nil)))), Option.none⟩, (some ⟨"r", []⟩), (.dict (.nil)), [((.str "f"), ⟨(.str "f"), (.str "b"), ⟨(.str "i"), (.str "9"), (.list (.cons (.dict (.cons "name" (.str "c") (.nil))) (.cons (.dict (.cons "name" (.str "s") (.nil))) (.nil))))⟩, "s", (.nil)⟩)], [⟨[⟨(.str "a"), (.str "e")⟩, ⟨(.str "b"), (.str "f")⟩]⟩]⟩)], [((.str "a"), ⟨2, [(.cons "name" (.str "a") (.nil)), (.cons "name" (.str "a") (.cons "kind" (.str "Component") (.cons "endpoints" (.list (.cons (.dict (.cons "name" (.str "e") (.cons "interface" (.str "i:c") (.nil)))) (.nil))) (.nil)))), (.nil)], [(.pathRef "y"), (.pathRef "y")], (.cons "name" (.str "a") (.cons "kind" (.str "Component") (.cons "endpoints" (.list (.cons (.dict (.cons "name" (.str "e") (.cons "interface" (.str "i:c") (.nil)))) (.nil))) (.nil)))), Option.none⟩), ((.str "b"), ⟨3, [(.cons "name" (.str "b") (.nil)), (.cons "name" (.str "b") (.cons "kind" (.str "Component") (.cons "endpoints" (.list (.cons (.dict (.cons "name" (.str "f") (.cons "interface" (.str "i:s") (.nil)))) (.nil))) (.nil)))), (.nil)], [(.pathRef "y"), (.pathRef "y")], (.cons "name" (.str "b") (.cons "kind" (.str "Component") (.cons "endpoints" (.list (.cons (.dict (.cons "name" (.str "f") (.cons "interface" (.str "i:s") (.nil)))) (.nil))) (.nil)))), Option.none⟩)], [("a:e(i:c)<>b:f(i:s)", ⟨[⟨(.str "a"), (.str "e")⟩, ⟨(.str "b"), (.str "f")⟩]⟩)], [((.str "i"), ⟨(.str "i"), (.str "9"), (.list (.cons (.dict (.cons "name" (.str "c") (.nil))) (.cons (.dict (.cons "name" (.str "s") (.nil))) (.nil))))⟩)], 10⟩

def g0Lit : GraphM := ⟨⟨5, [(.cons "name" (.str "g") (.cons "kind" (.str "Graph") (.cons "runtime" (.str "r") (.cons "services" (.list (.cons (.dict (.cons "name" (.str "a") (.nil))) (.cons (.dict (.cons "name" (.str "b") (.nil))) (.nil)))) (.cons "relations" (.list (.cons (.list (.cons (.str "a:e") (.cons (.str "b:f") (.cons (.str "b:z") (.nil))))) (.nil))) (.nil)))))), (.nil)], [(.pathRef "y")], (.cons "name" (.str "g") (.cons "kind" (.str "Graph") (.cons "runtime" (.str "r") (.cons "services" (.list (.cons (.dict (.cons "name" (.str "a") (.nil))) (.cons (.dict (.cons "name" (.str "b") (.nil))) (.nil)))) (.cons "relations" (.list (.cons (.list (.cons (.str "a:e") (.cons (.str "b:f") (.cons (.str "b:z") (.nil))))) (.nil))) (.nil)))))), Option.none⟩, [((.str "a"), ⟨(.str "a"), ⟨2, [(.cons "name" (.str "a") (.nil)), (.cons "name" (.str "a") (.cons "kind" (.str "Component") (.cons "endpoints" (.list (.cons (.dict (.cons "name" (.str "e") (.cons "interface" (.str "i:c") (.nil)))) (.nil))) (.nil)))), (.nil)], [(.pathRef "y"), (.pathRef "y")], (.cons "name" (.str "a") (.cons "kind" (.str "Component") (.cons "endpoints" (.list (.cons (.dict (.cons "name" (.str "e") (.cons "interface" (.str "i:c") (.nil)))) (.nil))) (.nil)))), Option.none⟩, (some ⟨"r", []⟩), (.dict (.nil)), [((.str "e"), ⟨(.str "e"), (.str "a"), ⟨(.str "i"), (.str "9"), (.list (.cons (.dict (.cons "name" (.str "c") (.nil))) (.cons (.dict (.cons "name" (.str "s") (.nil))) (.nil))))⟩, "c", (.nil)⟩)], [⟨[⟨(.str "a"), (.str "e")⟩, ⟨(.str "b"), (.str "f")⟩]⟩]⟩), ((.str "b"), ⟨(.str "b"), ⟨3, [(.cons "name" (.str "b") (.nil)), (.cons "name" (.str "b") (.cons "kind" (.str "Component") (.cons "endpoints" (.list (.cons (.dict (.cons "name" (.str "f") (.cons "interface" (.str "i:s") (.nil)))) (.nil))) (.nil)))), (.nil)], [(.pathRef "y"), (.pathRef "y")], (.cons "name" (.str "b") (.cons "kind" (.str "Component") (.cons "endpoints" (.list (.cons (.dict (.cons "name" (.str "f") (.cons "interface" (.str "i:s") (.nil)))) (.nil))) (.nil)))), Option.none⟩, (some ⟨"r", []⟩), (.dict (.nil)), [((.str "f"), ⟨(.str "f"), (.str "b"), ⟨(.str "i"), (.str "9"), (.list (.cons (.dict (.cons "name" (.str "c") (.nil))) (.cons (.dict (.cons "name" (.str "s") (.nil))) (.nil))))⟩, "s", (.nil)⟩)], [⟨[⟨(.str "a"), (.str "e")⟩, ⟨(.str "b"), (.str "f")⟩]⟩]⟩)], [("a:e(i:c)<>b:f(i:s)", ⟨[⟨(.str "a"), (.str "e")⟩, ⟨(.str "b"), (.str "f")⟩]⟩)], ⟨"r", []⟩, ⟨6, [(.cons "name" (.str "d") (.cons "kind" (.str "Environment") (.nil))), (.nil)], [(.pathRef "y")], (.cons "name" (.str "d") (.cons "kind" (.str "Environment") (.nil))), Option.none⟩, [((.str "i"), ⟨(.str "i"), (.str "9"), (.list (.cons (.dict (.cons "name" (.str "c") (.nil))) (.cons (.dict (.cons "name" (.str "s") (.nil))) (.nil))))⟩)], ⟨[("Interface:i", (.entity ⟨1, [(.cons "name" (.str "i") (.cons "kind" (.str "Interface") (.cons "version" (.str "9") (.cons "role" (.list (.cons (.dict (.cons "name" (.str "c") (.nil))) (.cons (.dict (.cons "name" (.str "s") (.nil))) (.nil)))) (.nil))))), (.nil)], [(.pathRef "y")], (.cons "name" (.str "i") (.cons "kind" (.str "Interface") (.cons "version" (.str "9") (.cons "role" (.list (.cons (.dict (.cons "name" (.str "c") (.nil))) (.cons (.dict (.cons "name" (.str "s") (.nil))) (.nil)))) (.nil))))), Option.none⟩)), ("Component:a", (.entity ⟨2, [(.cons "name" (.str "a") (.nil)), (.cons "name" (.str "a") (.cons "kind" (.str "Component") (.cons "endpoints" (.list (.cons (.dict (.cons "name" (.str "e") (.cons "interface" (.str "i:c") (.nil)))) (.nil))) (.nil)))), (.nil)], [(.pathRef "y"), (.pathRef "y")], (.cons "name" (.str "a") (.cons "kind" (.str "Component") (.cons "endpoints" (.list (.cons (.dict (.cons "name" (.str "e") (.cons "interface" (.str "i:c") (.nil)))) (.nil))) (.nil)))), Option.none⟩)), ("Component:b", (.entity ⟨3, [(.cons "name" (.str "b") (.nil)), (.cons "name" (.str "b") (.cons "kind" (.str "Component") (.cons "endpoints" (.list (.cons (.dict (.cons "name" (.str "f") (.cons "interface" (.str "i:s") (.nil)))) (.nil))) (.nil)))), (.nil)], [(.pathRef "y"), (.pathRef "y")], (.cons "name" (.str "b") (.cons "kind" (.str "Component") (.cons "endpoints" (.list (.cons (.dict (.cons "name" (.str "f") (.cons "interface" (.str "i:s") (.nil)))) (.nil))) (.nil)))), Option.none⟩)), ("Runtime:r", (.entity ⟨4, [(.cons "name" (.str "r") (.cons "kind" (.str "Runtime") (.cons "plugins" (.list (.nil)) (.nil)))), (.nil)], [(.pathRef "y")], (.cons "name" (.str "r") (.cons "kind" (.str "Runtime") (.cons "plugins" (.list (.nil)) (.nil)))), Option.none⟩)), ("RuntimeImpl:r", (.runtimeImpl "r")), ("Service:a", (.service (.str "a") 2)), ("Service:b", (.service (.str "b") 3)), ("Relation:a:e(i:c)<>b:f(i:s)", (.relation "a:e(i:c)<>b:f(i:s)"))], [("versions", ⟨(.list (.cons (.dict (.cons "name" (.str "a") (.cons "image" (.none) (.nil)))) (.cons (.dict (.cons "name" (.str "b") (.cons "image" (.none) (.nil)))) (.nil)))), [(.pyNone)], ⟨9, [(.cons "name" (.str "versions") (.cons "kind" (.str "Versions") (.nil))), (.nil)], [(.pyNone)], (.cons "name" (.str "versions") (.cons "kind" (.str "Versions") (.nil))), Option.none⟩⟩)]⟩⟩

def g1Lit : GraphM := ⟨⟨5, [(.cons "name" (.str "g") (.cons "kind" (.str "Graph") (.cons "runtime" (.str "r") (.cons "services" (.list (.cons (.dict (.cons "name" (.str "a") (.nil))) (.cons (.dict (.cons "name" (.str "b") (.nil))) (.nil)))) (.cons "relations" (.list (.cons (.list (.cons (.str "a:e") (.cons (.str "b:f") (.cons (.str "b:z") (.nil))))) (.nil))) (.nil)))))), (.nil)], [(.pathRef "y")], (.cons "name" (.str "g") (.cons "kind" (.str "Graph") (.cons "runtime" (.str "r") (.cons "services" (.list (.cons (.dict (.cons "name" (.str "a") (.nil))) (.cons (.dict (.cons "name" (.str "b") (.nil))) (.nil)))) (.cons "relations" (.list (.cons (.list (.cons (.str "a:e") (.cons (.str "b:f") (.cons (.str "b:z") (.nil))))) (.nil))) (.nil)))))), Option.none⟩, [((.str "a"), ⟨(.str "a"), ⟨2, [(.cons "name" (.str "a") (.cons "kind" (.str "Component") (.cons "endpoints" (.list (.cons (.dict (.cons "name" (.str "e") (.cons "interface" (.str "i:c") (.nil)))) (.nil))) (.nil)))), (.cons "name" (.str "a") (.cons "kind" (.str "Component") (.cons "endpoints" (.list (.cons (.dict (.cons "name" (.str "e") (.cons "interface" (.str "i:c") (.nil)))) (.nil))) (.nil)))), (.cons "name" (.str "a") (.nil)), (.cons "name" (.str "a") (.cons "kind" (.str "Component") (.cons "endpoints" (.list (.cons (.dict (.cons "name" (.str "e") (.cons "interface" (.str "i:c") (.nil)))) (.nil))) (.nil)))), (.nil)], [(.pathRef "y"), (.pathRef "y"), (.strRef "<interpolated>"), (.strRef "<interpolated>")], (.cons "name" (.str "a") (.cons "kind" (.str "Component") (.cons "endpoints" (.list (.cons (.dict (.cons "name" (.str "e") (.cons "interface" (.str "i:c") (.nil)))) (.nil))) (.nil)))), Option.none⟩, (some ⟨"r", []⟩), (.dict (.nil)), [((.str "e"), ⟨(.str "e"), (.str "a"), ⟨(.str "i"), (.str "9"), (.list (.cons (.dict (.cons "name" (.str "c") (.nil))) (.cons (.dict (.cons "name" (.str "s") (.nil))) (.nil))))⟩, "c", (.nil)⟩)], [⟨[⟨(.str "a"), (.str "e")⟩, ⟨(.str "b"), (.str "f")⟩]⟩]⟩), ((.str "b"), ⟨(.str "b"), ⟨3, [(.cons "name" (.str "b") (.nil)), (.cons "name" (.str "b") (.cons "kind" (.str "Component") (.cons "endpoints" (.list (.cons (.dict (.cons "name" (.str "f") (.cons "interface" (.str "i:s") (.nil)))) (.nil))) (.nil)))), (.nil)], [(.pathRef "y"), (.pathRef "y")], (.cons "name" (.str "b") (.cons "kind" (.str "Component") (.cons "endpoints" (.list (.cons (.dict (.cons "name" (.str "f") (.cons "interface" (.str "i:s") (.nil)))) (.nil))) (.nil)))), Option.none⟩, (some ⟨"r", []⟩), (.dict (.nil)), [((.str "f"), ⟨(.str "f"), (.str "b"), ⟨(.str "i"), (.str "9"), (.list (.cons (.dict (.cons "name" (.str "c") (.nil))) (.cons (.dict (.cons "name" (.str "s") (.nil))) (.nil))))⟩, "s", (.nil)⟩)], [⟨[⟨(.str "a"), (.str "e")⟩, ⟨(.str "b"), (.str "f")⟩]⟩]⟩)], [("a:e(i:c)<>b:f(i:s)", ⟨[⟨(.str "a"), (.str "e")⟩, ⟨(.str "b"), (.str "f")⟩]⟩)], ⟨"r", []⟩, ⟨6, [(.cons "name" (.str "d") (.cons "kind" (.str "Environment") (.nil))), (.nil)], [(.pathRef "y")], (.cons "name" (.str "d") (.cons "kind" (.str "Environment") (.nil))), Option.none⟩, [((.str "i"), ⟨(.str "i"), (.str "9"), (.list (.cons (.dict (.cons "name" (.str "c") (.nil))) (.cons (.dict (.cons "name" (.str "s") (.nil))) (.nil))))⟩)], ⟨[("Interface:i", (.entity ⟨1, [(.cons "name" (.str "i") (.cons "kind" (.str "Interface") (.cons "version" (.str "9") (.cons "role" (.list (.cons (.dict (.cons "name" (.str "c") (.nil))) (.cons (.dict (.cons "name" (.str "s") (.nil))) (.nil)))) (.nil))))), (.nil)], [(.pathRef "y")], (.cons "name" (.str "i") (.cons "kind" (.str "Interface") (.cons "version" (.str "9") (.cons "role" (.list (.cons (.dict (.cons "name" (.str "c") (.nil))) (.cons (.dict (.cons "name" (.str "s") (.nil))) (.nil)))) (.nil))))), Option.none⟩)), ("Component:a", (.entity ⟨2, [(.cons "name" (.str "a") (.cons "kind" (.str "Component") (.cons "endpoints" (.list (.cons (.dict (.cons "name" (.str "e") (.cons "interface" (.str "i:c") (.nil)))) (.nil))) (.nil)))), (.cons "name" (.str "a") (.cons "kind" (.str "Component") (.cons "endpoints" (.list (.cons (.dict (.cons "name" (.str "e") (.cons "interface" (.str "i:c") (.nil)))) (.nil))) (.nil)))), (.cons "name" (.str "a") (.nil)), (.cons "name" (.str "a") (.cons "kind" (.str "Component") (.cons "endpoints" (.list (.cons (.dict (.cons "name" (.str "e") (.cons "interface" (.str "i:c") (.nil)))) (.nil))) (.nil)))), (.nil)], [(.pathRef "y"), (.pathRef "y"), (.strRef "<interpolated>"), (.strRef "<interpolated>")], (.cons "name" (.str "a") (.cons "kind" (.str "Component") (.cons "endpoints" (.list (.cons (.dict (.cons "name" (.str "e") (.cons "interface" (.str "i:c") (.nil)))) (.nil))) (.nil)))), Option.none⟩)), ("Component:b", (.entity ⟨3, [(.cons "name" (.str "b") (.nil)), (.cons "name" (.str "b") (.cons "kind" (.str "Component") (.cons "endpoints" (.list (.cons (.dict (.cons "name" (.str "f") (.cons "interface" (.str "i:s") (.nil)))) (.nil))) (.nil)))), (.nil)], [(.pathRef "y"), (.pathRef "y")], (.cons "name" (.str "b") (.cons "kind" (.str "Component") (.cons "endpoints" (.list (.cons (.dict (.cons "name" (.str "f") (.cons "interface" (.str "i:s") (.nil)))) (.nil))) (.nil)))), Option.none⟩)), ("Runtime:r", (.entity ⟨4, [(.cons "name" (.str "r") (.cons "kind" (.str "Runtime") (.cons "plugins" (.list (.nil)) (.nil)))), (.nil)], [(.pathRef "y")], (.cons "name" (.str "r") (.cons "kind" (.str "Runtime") (.cons "plugins" (.list (.nil)) (.nil)))), Option.none⟩)), ("RuntimeImpl:r", (.runtimeImpl "r")), ("Service:a", (.service (.str "a") 2)), ("Service:b", (.service (.str "b") 3)), ("Relation:a:e(i:c)<>b:f(i:s)", (.relation "a:e(i:c)<>b:f(i:s)"))], [("versions", ⟨(.list (.cons (.dict (.cons "name" (.str "a") (.cons "image" (.none) (.nil)))) (.cons (.dict (.cons "name" (.str "b") (.cons "image" (.none) (.nil)))) (.nil)))), [(.pyNone)], ⟨9, [(.cons "name" (.str "versions") (.cons "kind" (.str "Versions") (.nil))), (.nil)], [(.pyNone)], (.cons "name" (.str "versions") (.cons "kind" (.str "Versions") (.nil))), Option.none⟩⟩)]⟩⟩

def g2Lit : GraphM := ⟨⟨5, [(.cons "name" (.str "g") (.cons "kind" (.str "Graph") (.cons "runtime" (.str "r") (.cons "services" (.list (.cons (.dict (.cons "name" (.str "a") (.nil))) (.cons (.dict (.cons "name" (.str "b") (.nil))) (.nil)))) (.cons "relations" (.list (.cons (.list (.cons (.str "a:e") (.cons (.str "b:f") (.cons (.str "b:z") (.nil))))) (.nil))) (.nil)))))), (.nil)], [(.pathRef "y")], (.cons "name" (.str "g") (.cons "kind" (.str "Graph") (.cons "runtime" (.str "r") (.cons "services" (.list (.cons (.dict (.cons "name" (.str "a") (.nil))) (.cons (.dict (.cons "name" (.str "b") (.nil))) (.nil)))) (.cons "relations" (.list (.cons (.list (.cons (.str "a:e") (.cons (.str "b:f") (.cons (.str "b:z") (.nil))))) (.nil))) (.nil)))))), Option.none⟩, [((.str "a"), ⟨(.str "a"), ⟨2, [(.cons "name" (.str "a") (.cons "kind" (.str "Component") (.cons "endpoints" (.list (.cons (.dict (.cons "name" (.str "e") (.cons "interface" (.str "i:c") (.nil)))) (.nil))) (.nil)))), (.cons "name" (.str "a") (.cons "kind" (.str "Component") (.cons "endpoints" (.list (.cons (.dict (.cons "name" (.str "e") (.cons "interface" (.str "i:c") (.nil)))) (.nil))) (.nil)))), (.cons "name" (.str "a") (.nil)), (.cons "name" (.str "a") (.cons "kind" (.str "Component") (.cons "endpoints" (.list (.cons (.dict (.cons "name" (.str "e") (.cons "interface" (.str "i:c") (.nil)))) (.nil))) (.nil)))), (.nil)], [(.pathRef "y"), (.pathRef "y"), (.strRef "<interpolated>"), (.strRef "<interpolated>")], (.cons "name" (.str "a") (.cons "kind" (.str "Component") (.cons "endpoints" (.list (.cons (.dict (.cons "name" (.str "e") (.cons "interface" (.str "i:c") (.nil)))) (.nil))) (.nil)))), Option.none⟩, (some ⟨"r", []⟩), (.dict (.nil)), [((.str "e"), ⟨(.str "e"), (.str "a"), ⟨(.str "i"), (.str "9"), (.list (.cons (.dict (.cons "name" (.str "c") (.nil))) (.cons (.dict (.cons "name" (.str "s") (.nil))) (.nil))))⟩, "c", (.nil)⟩)], [⟨[⟨(.str "a"), (.str "e")⟩, ⟨(.str "b"), (.str "f")⟩]⟩]⟩), ((.str "b"), ⟨(.str "b"), ⟨3, [(.cons "name" (.str "b") (.cons "kind" (.str "Component") (.cons "endpoints" (.list (.cons (.dict (.cons "name" (.str "f") (.cons "interface" (.str "i:s") (.nil)))) (.nil))) (.nil)))), (.cons "name" (.str "b") (.cons "kind" (.str "Component") (.cons "endpoints" (.list (.cons (.dict (.cons "name" (.str "f") (.cons "interface" (.str "i:s") (.nil)))) (.nil))) (.nil)))), (.cons "name" (.str "b") (.nil)), (.cons "name" (.str "b") (.cons "kind" (.str "Component") (.cons "endpoints" (.list (.cons (.dict (.cons "name" (.str "f") (.cons "interface" (.str "i:s") (.nil)))) (.nil))) (.nil)))), (.nil)], [(.pathRef "y"), (.pathRef "y"), (.strRef "<interpolated>"), (.strRef "<interpolated>")], (.cons "name" (.str "b") (.cons "kind" (.str "Component") (.cons "endpoints" (.list (.cons (.dict (.cons "name" (.str "f") (.cons "interface" (.str "i:s") (.nil)))) (.nil))) (.nil)))), Option.none⟩, (some ⟨"r", []⟩), (.dict (.nil)), [((.str "f"), ⟨(.str "f"), (.str "b"), ⟨(.str "i"), (.str "9"), (.list (.cons (.dict (.cons "name" (.str "c") (.nil))) (.cons (.dict (.cons "name" (.str "s") (.nil))) (.nil))))⟩, "s", (.nil)⟩)], [⟨[⟨(.str "a"), (.str "e")⟩, ⟨(.str "b"), (.str "f")⟩]⟩]⟩)], [("a:e(i:c)<>b:f(i:s)", ⟨[⟨(.str "a"), (.str "e")⟩, ⟨(.str "b"), (.str "f")⟩]⟩)], ⟨"r", []⟩, ⟨6, [(.cons "name" (.str "d") (.cons "kind" (.str "Environment") (.nil))), (.nil)], [(.pathRef "y")], (.cons "name" (.str "d") (.cons "kind" (.str "Environment") (.nil))), Option.none⟩, [((.str "i"), ⟨(.str "i"), (.str "9"), (.list (.cons (.dict (.cons "name" (.str "c") (.nil))) (.cons (.dict (.cons "name" (.str "s") (.nil))) (.nil))))⟩)], ⟨[("Interface:i", (.entity ⟨1, [(.cons "name" (.str "i") (.cons "kind" (.str "Interface") (.cons "version" (.str "9") (.cons "role" (.list (.cons (.dict (.cons "name" (.str "c") (.nil))) (.cons (.dict (.cons "name" (.str "s") (.nil))) (.nil)))) (.nil))))), (.nil)], [(.pathRef "y")], (.cons "name" (.str "i") (.cons "kind" (.str "Interface") (.cons "version" (.str "9") (.cons "role" (.list (.cons (.dict (.cons "name" (.str "c") (.nil))) (.cons (.dict (.cons "name" (.str "s") (.nil))) (.nil)))) (.nil))))), Option.none⟩)), ("Component:a", (.entity ⟨2, [(.cons "name" (.str "a") (.cons "kind" (.str "Component") (.cons "endpoints" (.list (.cons (.dict (.cons "name" (.str "e") (.cons "interface" (.str "i:c") (.nil)))) (.nil))) (.nil)))), (.cons "name" (.str "a") (.cons "kind" (.str "Component") (.cons "endpoints" (.list (.cons (.dict (.cons "name" (.str "e") (.cons "interface" (.str "i:c") (.nil)))) (.nil))) (.nil)))), (.cons "name" (.str "a") (.nil)), (.cons "name" (.str "a") (.cons "kind" (.str "Component") (.cons "endpoints" (.list (.cons (.dict (.cons "name" (.str "e") (.cons "interface" (.str "i:c") (.nil)))) (.nil))) (.nil)))), (.nil)], [(.pathRef "y"), (.pathRef "y"), (.strRef "<interpolated>"), (.strRef "<interpolated>")], (.cons "name" (.str "a") (.cons "kind" (.str "Component") (.cons "endpoints" (.list (.cons (.dict (.cons "name" (.str "e") (.cons "interface" (.str "i:c") (.nil)))) (.nil))) (.nil)))), Option.none⟩)), ("Component:b", (.entity ⟨3, [(.cons "name" (.str "b") (.cons "kind" (.str "Component") (.cons "endpoints" (.list (.cons (.dict (.cons "name" (.str "f") (.cons "interface" (.str "i:s") (.nil)))) (.nil))) (.nil)))), (.cons "name" (.str "b") (.cons "kind" (.str "Component") (.cons "endpoints" (.list (.cons (.dict (.cons "name" (.str "f") (.cons "interface" (.str "i:s") (.nil)))) (.nil))) (.nil)))), (.cons "name" (.str "b") (.nil)), (.cons "name" (.str "b") (.cons "kind" (.str "Component") (.cons "endpoints" (.list (.cons (.dict (.cons "name" (.str "f") (.cons "interface" (.str "i:s") (.nil)))) (.nil))) (.nil)))), (.nil)], [(.pathRef "y"), (.pathRef "y"), (.strRef "<interpolated>"), (.strRef "<interpolated>")], (.cons "name" (.str "b") (.cons "kind" (.str "Component") (.cons "endpoints" (.list (.cons (.dict (.cons "name" (.str "f") (.cons "interface" (.str "i:s") (.nil)))) (.nil))) (.nil)))), Option.none⟩)), ("Runtime:r", (.entity ⟨4, [(.cons "name" (.str "r") (.cons "kind" (.str "Runtime") (.cons "plugins" (.list (.nil)) (.nil)))), (.nil)], [(.pathRef "y")], (.cons "name" (.str "r") (.cons "kind" (.str "Runtime") (.cons "plugins" (.list (.nil)) (.nil)))), Option.none⟩)), ("RuntimeImpl:r", (.runtimeImpl "r")), ("Service:a", (.service (.str "a") 2)), ("Service:b", (.service (.str "b") 3)), ("Relation:a:e(i:c)<>b:f(i:s)", (.relation "a:e(i:c)<>b:f(i:s)"))], [("versions", ⟨(.list (.cons (.dict (.cons "name" (.str "a") (.cons "image" (.none) (.nil)))) (.cons (.dict (.cons "name" (.str "b") (.cons "image" (.none) (.nil)))) (.nil)))), [(.pyNone)], ⟨9, [(.cons "name" (.str "versions") (.cons "kind" (.str "Versions") (.nil))), (.nil)], [(.pyNone)], (.cons "name" (.str "versions") (.cons "kind" (.str "Versions") (.nil))), Option.none⟩⟩)]⟩⟩


/-! ### C1: staged evaluation of `plan` on the dangling-relation input.
`graphEnt1` declares services `a` and `b` and one relation
`["a:e", "b:f", "b:z"]` whose third reference names an endpoint `z` that
service `b` does not have.  The stages below evaluate `plan` step by step
through the printed literal intermediate states. -/

theorem bindOk {A B : Type} (a : A) (f : A → Except PyErr B) :
    (Except.ok a >>= f) = f a := rfl

theorem stageImpls : planInterfaces store1 = .ok implsLit := by decide

theorem stageSvcSpecs :
    graphEnt1.get "services" (.list .nil)
      = .ok (pyl [pyd [("name", .str "a")], pyd [("name", .str "b")]]) := by decide

theorem stageSvcItems :
    iterVals (pyl [pyd [("name", .str "a")], pyd [("name", .str "b")]])
      = .ok [pyd [("name", .str "a")], pyd [("name", .str "b")]] := by decide

theorem stageServices :
    [pyd [("name", .str "a")], pyd [("name", .str "b")]].foldlM
        (planServiceStep ⟨graphEnt1, envEnt, .none, []⟩)
        ⟨store1, [], [], [], [], implsLit, 9⟩
      = .ok psSLit := by decide

theorem stageRelSpecs :
    graphEnt1.get "relations" (.list .nil)
      = .ok (pyl [pyl [.str "a:e", .str "b:f", .str "b:z"]]) := by decide

theorem stageRelItems :
    iterVals (pyl [pyl [.str "a:e", .str "b:f", .str "b:z"]])
      = .ok [pyl [.str "a:e", .str "b:f", .str "b:z"]] := by decide

theorem stageRelations :
    [pyl [.str "a:e", .str "b:f", .str "b:z"]].foldlM planRelationStep psSLit
      = .ok psRLit := by decide

theorem stageVersions : planVersions psRLit = .ok psVLit := by decide

theorem stageInit :
    buildGraphInit ⟨graphEnt1, envEnt, .none, []⟩ psVLit = .ok g0Lit := by decide

theorem stageNames : g0Lit.nodes.map Prod.fst = [.str "a", .str "b"] := by decide

theorem stageFini :
    [PyVal.str "a", PyVal.str "b"].foldlM serviceFini g0Lit = .ok g2Lit := by decide

theorem stageValidate :
    [PyVal.str "a", PyVal.str "b"].mapM (validateService g2Lit)
      = .ok [(), ()] := by decide

theorem planDanglingOk :
    plan graphEnt1 store1 envEnt .none [] 9 = .ok g2Lit := by
  simp only [plan, buildGraph, stageImpls, bindOk, stageSvcSpecs, stageSvcItems,
    stageServices, stageRelSpecs, stageRelItems, stageRelations, stageVersions,
    stageInit, stageNames, stageFini, stageValidate]

/-- C1, counterexample.  The graph entity `graphEnt1` declares a relation
containing the reference `"b:z"`; after the services pass the planner's
service `b` exists but has no endpoint `z`, and the resolution loop of the
relation step maps the reference to nothing (the `log.warn`-and-skip branch
of `graph.plan`); yet `plan` raises no `ConfigurationError` — it returns a
Graph, whose single edge pairs only the two resolved endpoints.  This
refutes the claim that a relation reference whose endpoint does not resolve
aborts planning with no Graph returned. -/
theorem c1_dangling_ref_still_returns_graph :
    graphEnt1.get "relations" (.list .nil)
        = .ok (pyl [pyl [.str "a:e", .str "b:f", .str "b:z"]]) ∧
    (vlookup psSLit.services (.str "b")).isSome = true ∧
    ((vlookup psSLit.services (.str "b")).bind
        (fun sv => vlookup sv.endpoints (.str "z"))) = Option.none ∧
    resolveRefsGo psSLit [.str "b:z"] ([], []) = .ok ([], []) ∧
    plan graphEnt1 store1 envEnt .none [] 9 = .ok g2Lit ∧
    g2Lit.edges.map (fun e => e.2.endpoints.length) = [2] :=
  ⟨by decide, by decide, by decide, by decide, planDanglingOk, by decide⟩

/-- C1: amended claim.  A service spec naming a component absent from the
store does abort `plan` with the typed `ConfigurationError`
(`graph.py` lines 89-92).  But a relation reference whose endpoint does not
resolve on its (existing) service is only warned about and skipped by the
resolution loop (`graph.py` lines 147-148): it contributes nothing, and
planning continues — so `plan` can still return a Graph, as the
counterexample exhibits. -/
theorem c1_missing_component_aborts_dangling_endpoint_skipped :
    (∀ (args : PlanArgs) (ps : PlanSt) (spec : PyVal) (name cname : PyVal),
      pyDictGet spec "name" .none = .ok name →
      pyDictGet spec "component" name = .ok cname →
      ps.store.componentGet cname = Option.none →
      planServiceStep args ps spec
        = .error (.configurationError
            ("graph references unknown component " ++ pyToStr spec))) ∧
    (∀ (ps : PlanSt) (refv : PyVal) (rest : List PyVal)
        (acc : List String × List EpRef) (s : String),
      asStr refv (.attributeError "partition") = .ok s →
      (vlookup ps.services (.str (partitionColon s).1)).isSome = true →
      ((vlookup ps.services (.str (partitionColon s).1)).bind
          (fun sv => vlookup sv.endpoints (.str (partitionColon s).2)))
        = Option.none →
      resolveRefsGo ps (refv :: rest) acc = resolveRefsGo ps rest acc) := by
  constructor
  · intro args ps spec name cname h1 h2 h3
    simp only [planServiceStep, h1, h2, bindOk, h3]
  · intro ps refv rest acc s h1 h2 h3
    match hsv : vlookup ps.services (.str (partitionColon s).1) with
    | Option.none => rw [hsv] at h2; simp at h2
    | some sv =>
        rw [hsv] at h3
        simp only [Option.bind] at h3
        simp only [resolveRefsGo, h1, bindOk, hsv, h3]

/-- C1, witness for the amended theorem: the spec naming unknown component
`q` aborts the service step with the `ConfigurationError`, and the dangling
reference `"b:z"` is skipped by the resolution loop. -/
theorem c1_amended_witness :
    planServiceStep ⟨graphEnt1, envEnt, .none, []⟩
        ⟨store1, [], [], [], [], implsLit, 9⟩
        (pyd [("name", .str "a"), ("component", .str "q")])
      = .error (.configurationError
          ("graph references unknown component "
            ++ pyToStr (pyd [("name", .str "a"), ("component", .str "q")]))) ∧
    resolveRefsGo psSLit [.str "b:z"] ([], []) = resolveRefsGo psSLit [] ([], []) :=
  ⟨c1_missing_component_aborts_dangling_endpoint_skipped.1
      ⟨graphEnt1, envEnt, .none, []⟩ ⟨store1, [], [], [], [], implsLit, 9⟩
      (pyd [("name", .str "a"), ("component", .str "q")])
      (.str "a") (.str "q") (by decide) (by decide) (by decide),
   c1_missing_component_aborts_dangling_endpoint_skipped.2
      psSLit (.str "b:z") [] ([], []) "b:z" (by decide) (by decide) (by decide)⟩


/-! ### C2: the relation interface-uniqueness dichotomy -/

theorem alookup_aset_self {A : Type} :
    ∀ (l : List (String × A)) (k : String) (v : A),
      alookup (aset l k v) k = some v
  | [], k, v => by simp [aset, alookup]
  | (k0, w) :: t, k, v => by
      by_cases h : k0 = k
      · simp [aset, alookup, h]
      · simp [aset, alookup, h, alookup_aset_self t k v]

theorem vlookup_vset_self {A : Type} :
    ∀ (l : List (PyVal × A)) (k : PyVal) (v : A),
      vlookup (vset l k v) k = some v
  | [], k, v => by simp [vset, vlookup]
  | (k0, w) :: t, k, v => by
      by_cases h : k0 = k
      · simp [vset, vlookup, h]
      · simp [vset, vlookup, h, vlookup_vset_self t k v]

theorem vlookup_vset_other {A : Type} :
    ∀ (l : List (PyVal × A)) (k k2 : PyVal) (v : A), k2 ≠ k →
      vlookup (vset l k2 v) k = vlookup l k
  | [], k, k2, v, hne => by simp [vset, vlookup, hne]
  | (k0, w) :: t, k, k2, v, hne => by
      by_cases h : k0 = k2
      · subst h; simp [vset, vlookup, hne]
      · simp only [vset, if_neg h, vlookup]
        by_cases h2 : k0 = k
        · simp [h2]
        · simp [h2, vlookup_vset_other t k k2 v hne]

theorem appendRel_preserves :
    ∀ (eps : List EpRef) (svs svs2 : List (PyVal × ServiceM)) (r : RelationM)
      (k : PyVal) (sv : ServiceM),
      appendRelToServices svs eps r = .ok svs2 →
      vlookup svs k = some sv → r ∈ sv.relations →
      ∃ sv2, vlookup svs2 k = some sv2 ∧ r ∈ sv2.relations
  | [], svs, svs2, r, k, sv, h, hl, hm => by
      simp only [appendRelToServices] at h
      cases h
      exact ⟨sv, hl, hm⟩
  | ep :: rest, svs, svs2, r, k, sv, h, hl, hm => by
      simp only [appendRelToServices] at h
      match hsv : vlookup svs ep.serviceName with
      | Option.none => rw [hsv] at h; exact absurd h (by simp)
      | some sv0 =>
          rw [hsv] at h
          by_cases hk : ep.serviceName = k
          · subst hk
            rw [hl] at hsv
            injection hsv with e
            subst e
            exact appendRel_preserves rest _ svs2 r _ _ h
              (vlookup_vset_self svs ep.serviceName _)
              (List.mem_append_left _ hm)
          · exact appendRel_preserves rest _ svs2 r k sv h
              (by rw [vlookup_vset_other svs k ep.serviceName _ hk]; exact hl) hm

theorem appendRel_mem :
    ∀ (eps : List EpRef) (svs svs2 : List (PyVal × ServiceM)) (r : RelationM),
      appendRelToServices svs eps r = .ok svs2 →
      ∀ ref ∈ eps, ∃ sv2, vlookup svs2 ref.serviceName = some sv2 ∧
        r ∈ sv2.relations
  | [], svs, svs2, r, h, ref, hmem => absurd hmem (by simp)
  | ep :: rest, svs, svs2, r, h, ref, hmem => by
      simp only [appendRelToServices] at h
      match hsv : vlookup svs ep.serviceName with
      | Option.none => rw [hsv] at h; exact absurd h (by simp)
      | some sv0 =>
          rw [hsv] at h
          rcases List.mem_cons.mp hmem with heq | hrest
          · subst heq
            exact appendRel_preserves rest _ svs2 r ref.serviceName _ h
              (vlookup_vset_self svs ref.serviceName _)
              (List.mem_append_right _ (by simp))
          · exact appendRel_mem rest _ svs2 r h ref hrest

/-- C2.  The relation step of `plan`, `planRelationStep`: (1) when the
resolved endpoints of a declared relation span two or more distinct
interfaces, the step aborts with the typed `ConfigurationError`; (2) when
they share exactly one interface, the step succeeds: the built Relation is
recorded in the planner's relations map, appended to each participating
endpoint's owning Service's `relations` list, and registered in the store
under its `Relation:`-prefixed id. -/
theorem c2_relation_interface_dichotomy :
    (∀ (ps : PlanSt) (relation : PyVal) (items : List PyVal)
        (acc : List String × List EpRef),
      iterVals relation = .ok items →
      resolveRefsGo ps items ([], []) = .ok acc →
      2 ≤ acc.1.length →
      planRelationStep ps relation
        = .error (.configurationError
            ("More than one interface used in relation " ++ pyToStr relation))) ∧
    (∀ (ps : PlanSt) (relation : PyVal) (items : List PyVal)
        (acc : List String × List EpRef) (rname : String)
        (svs : List (PyVal × ServiceM)) (st : Store),
      iterVals relation = .ok items →
      resolveRefsGo ps items ([], []) = .ok acc →
      acc.1.length = 1 →
      relationName ps.services ⟨acc.2⟩ = .ok rname →
      appendRelToServices ps.services acc.2 ⟨acc.2⟩ = .ok svs →
      ps.store.add (.relation rname) = .ok st →
      planRelationStep ps relation
        = .ok { ps with relations := aset ps.relations rname ⟨acc.2⟩,
                        services := svs, store := st } ∧
      (∀ ref ∈ acc.2, ∃ sv, vlookup svs ref.serviceName = some sv ∧
          (⟨acc.2⟩ : RelationM) ∈ sv.relations) ∧
      alookup st.state ("Relation:" ++ rname) = some (.relation rname)) := by
  constructor
  · intro ps relation items acc h1 h2 h3
    have hne : acc.1.length ≠ 1 := by omega
    simp only [planRelationStep, h1, bindOk, h2, if_pos hne]
  · intro ps relation items acc rname svs st h1 h2 h3 h4 h5 h6
    refine ⟨?_, appendRel_mem acc.2 ps.services svs ⟨acc.2⟩ h5, ?_⟩
    · simp only [planRelationStep, h1, bindOk, h2, if_neg (by omega : ¬acc.1.length ≠ 1),
        h4, h5, h6]
      rfl
    · have hst : st = { ps.store with
          state := aset ps.store.state ("Relation:" ++ rname) (.relation rname) } := by
        simp only [Store.add, storedId] at h6
        cases h6
        rfl
      rw [hst]
      exact alookup_aset_self ps.store.state ("Relation:" ++ rname) (.relation rname)


/-- A small planner state for the C2 witness: services `s1` (endpoint `u` on
interface `x`), `s2` (endpoint `v` on interface `y`) and `s3` (endpoint `w`
on interface `x`). -/
def ifaceX : InterfaceM := ⟨.str "x", .str "1", pyl [pyd [("name", .str "p")]]⟩

def ifaceY : InterfaceM := ⟨.str "y", .str "1", pyl [pyd [("name", .str "p")]]⟩

def entW : Entity := entOf 1 [("name", .str "c"), ("kind", .str "Component")] (.strRef "w")

def epU : EndpointM := ⟨.str "u", .str "s1", ifaceX, "p", .nil⟩

def epV : EndpointM := ⟨.str "v", .str "s2", ifaceY, "p", .nil⟩

def epW : EndpointM := ⟨.str "w", .str "s3", ifaceX, "p", .nil⟩

def svc1 : ServiceM := ⟨.str "s1", entW, Option.none, pyd [], [(.str "u", epU)], []⟩

def svc2 : ServiceM := ⟨.str "s2", entW, Option.none, pyd [], [(.str "v", epV)], []⟩

def svc3 : ServiceM := ⟨.str "s3", entW, Option.none, pyd [], [(.str "w", epW)], []⟩

def psW : PlanSt :=
  ⟨⟨[], []⟩, [], [(.str "s1", svc1), (.str "s2", svc2), (.str "s3", svc3)], [], [], [], 0⟩

def relW : RelationM := ⟨[⟨.str "s1", .str "u"⟩, ⟨.str "s3", .str "w"⟩]⟩

def rnameW : String := "s1:u(x:p)<>s3:w(x:p)"

def svsW : List (PyVal × ServiceM) :=
  [(.str "s1", { svc1 with relations := [relW] }), (.str "s2", svc2),
   (.str "s3", { svc3 with relations := [relW] })]

def stW : Store := ⟨[("Relation:" ++ rnameW, .relation rnameW)], []⟩

/-- C2, witness: the relation `["s1:u", "s2:v"]` spans interfaces `x` and `y`
and aborts with the `ConfigurationError`; the relation `["s1:u", "s3:w"]`
lives on the single interface `x` and succeeds, landing in both services'
`relations` lists and in the store. -/
theorem c2_witness :
    planRelationStep psW (pyl [.str "s1:u", .str "s2:v"])
      = .error (.configurationError ("More than one interface used in relation "
          ++ pyToStr (pyl [.str "s1:u", .str "s2:v"]))) ∧
    planRelationStep psW (pyl [.str "s1:u", .str "s3:w"])
      = .ok { psW with relations := aset psW.relations rnameW ⟨relW.endpoints⟩,
                       services := svsW, store := stW } ∧
    alookup stW.state ("Relation:" ++ rnameW) = some (.relation rnameW) :=
  ⟨c2_relation_interface_dichotomy.1 psW (pyl [.str "s1:u", .str "s2:v"])
      [.str "s1:u", .str "s2:v"]
      (["x:1", "y:1"], [⟨.str "s1", .str "u"⟩, ⟨.str "s2", .str "v"⟩])
      (by decide) (by decide) (by decide),
   (c2_relation_interface_dichotomy.2 psW (pyl [.str "s1:u", .str "s3:w"])
      [.str "s1:u", .str "s3:w"] (["x:1"], relW.endpoints) rnameW svsW stW
      (by decide) (by decide) (by decide) (by decide) (by decide) (by decide)).1,
   (c2_relation_interface_dichotomy.2 psW (pyl [.str "s1:u", .str "s3:w"])
      [.str "s1:u", .str "s3:w"] (["x:1"], relW.endpoints) rnameW svsW stW
      (by decide) (by decide) (by decide) (by decide) (by decide) (by decide)).2.2⟩


/-! ### C3: the missing-reference error of interpolation -/

theorem fmRef_append (ctx : PyFields) :
    ∀ (cs acc rest : List Char), (∀ c ∈ cs, c ≠ '}') →
      formatMapRef ctx acc (cs ++ '}' :: rest)
        = formatMapRef ctx (cs.reverse ++ acc) ('}' :: rest)
  | [], acc, rest, _ => by simp
  | c :: cs, acc, rest, h => by
      have hc : c ≠ '}' := h c (by simp)
      rw [List.cons_append, formatMapRef.eq_def]
      simp only []
      rw [fmRef_append ctx cs (c :: acc) rest (fun x hx => h x (by simp [hx]))]
      simp

theorem fsRef_append :
    ∀ (cs acc rest : List Char), (∀ c ∈ cs, c ≠ '}') →
      fstringRef acc (cs ++ '}' :: rest)
        = fstringRef (cs.reverse ++ acc) ('}' :: rest)
  | [], acc, rest, _ => by simp
  | c :: cs, acc, rest, h => by
      have hc : c ≠ '}' := h c (by simp)
      rw [List.cons_append, fstringRef.eq_def]
      simp only []
      rw [fsRef_append cs (c :: acc) rest (fun x hx => h x (by simp [hx]))]
      simp

theorem formatMap_simple_missing (name : String) (ctx : PyFields)
    (h1 : isPyIdent name = true) (h2 : ∀ c ∈ name.data, c ≠ '}' ∧ c ≠ '{')
    (h3 : ctx.lookup name = Option.none) :
    pyFormatMap ("\x7b" ++ name ++ "\x7d") ctx = .error (.attributeError name) := by
  show formatMapChars ctx ('{' :: (name.data ++ ['}'])) = .error (.attributeError name)
  match hd : name.data with
  | [] => rw [isPyIdent, hd] at h1; simp at h1
  | c :: rest =>
      have hc : c ≠ '}' ∧ c ≠ '{' := h2 c (by rw [hd]; simp)
      rw [formatMapChars.eq_def]
      split
      · rename_i heq; simp at heq
      · rename_i heq
        injection heq with e1 e2
        rw [List.cons_append] at e2
        injection e2 with e2a
        exact absurd e2a hc.2
      · rename_i heq
        injection heq with e1
        exact absurd e1 (by decide)
      · rename_i rest2 heq
        injection heq with e1 e2
        rw [← e2]
        rw [show (c :: rest) ++ ['}'] = (c :: rest) ++ '}' :: ([] : List Char) from rfl,
          fmRef_append ctx (c :: rest) [] [] (fun x hx => ((h2 x) (by rw [hd]; exact hx)).1)]
        rw [formatMapRef.eq_def]
        simp only [List.append_nil, List.reverse_reverse]
        have hmk : ({ data := c :: rest } : String) = name := by
          rw [← hd]
        rw [hmk, h3]
      · rename_i heq
        injection heq with e1
        exact absurd e1 (by decide)
      · rename_i hx1 hx2 hx3 hx4 hx5 heq
        injection heq with e1 e2
        exact absurd (hx4 e1.symm) (by simp)

theorem fstring_simple_missing (name : String) (ctx : PyFields)
    (h1 : isPyIdent name = true) (h2 : ∀ c ∈ name.data, c ≠ '}' ∧ c ≠ '{')
    (h3 : ctx.lookup name = Option.none) :
    fstring ("\x7b" ++ name ++ "\x7d") ctx = .error (.attributeError name) := by
  have hsegs : fstringSegs ('{' :: (name.data ++ ['}'])) = [.expr name] := by
    rw [fstringSegs.eq_def]
    simp only []
    rw [show name.data ++ ['}'] = name.data ++ '}' :: ([] : List Char) from rfl,
      fsRef_append name.data [] [] (fun x hx => (h2 x hx).1)]
    rw [fstringRef.eq_def]
    simp only [List.append_nil, List.reverse_reverse]
    match hd : name.data with
    | [] => rw [isPyIdent, hd] at h1; simp at h1
    | c :: rest =>
        simp only []
        rw [show ({ data := c :: rest } : String) = name from by rw [← hd]]
        rw [fstringSegs.eq_def]
  show fstring (String.mk ('{' :: (name.data ++ ['}']))) ctx = .error (.attributeError name)
  rw [fstring]
  simp only [hsegs]
  rw [fstringOutputs, evalFExpr, h1]
  simp only [if_true, h3]

theorem interpolateStr_simple_missing (name : String) (ctx : PyFields)
    (h1 : isPyIdent name = true) (h2 : ∀ c ∈ name.data, c ≠ '}' ∧ c ≠ '{')
    (h3 : ctx.lookup name = Option.none) (am : Bool) :
    interpolateStr ("\x7b" ++ name ++ "\x7d") ctx am
      = if am then .ok (.str ("\x7b" ++ name ++ "\x7d"))
        else .error (.attributeError
          ("Error interpolating " ++ ("\x7b" ++ name ++ "\x7d"))) := by
  rw [interpolateStr]
  rw [formatMap_simple_missing name ctx h1 h2 h3]
  simp only [PyErr.isAttrOrKeyError, if_true]
  rw [fstring_simple_missing name ctx h1 h2 h3]
  simp only [PyErr.isAttributeError]
  cases am <;> simp


/-- C3, amended.  A string that is a reference `\x7bname\x7d` whose name is
missing from the context: with `allow_missing` unset, `interpolate` raises
the builtin `AttributeError` ("Error interpolating ...") — the
`MissingContextError` the spec names does not exist in the repository — and
with `allow_missing` set it returns the original unresolved string
unchanged. -/
theorem c3_missing_ref_attributeError_or_unchanged :
    ∀ (name : String) (ctx : PyFields), isPyIdent name = true →
      (∀ c ∈ name.data, c ≠ '}' ∧ c ≠ '{') →
      ctx.lookup name = Option.none →
      interpolate (.str ("\x7b" ++ name ++ "\x7d")) ctx false
        = .error (.attributeError
            ("Error interpolating " ++ ("\x7b" ++ name ++ "\x7d"))) ∧
      interpolate (.str ("\x7b" ++ name ++ "\x7d")) ctx true
        = .ok (.str ("\x7b" ++ name ++ "\x7d")) := by
  intro name ctx h1 h2 h3
  constructor
  · rw [show interpolate (.str ("\x7b" ++ name ++ "\x7d")) ctx false
        = interpolateStr ("\x7b" ++ name ++ "\x7d") ctx false from rfl,
      interpolateStr_simple_missing name ctx h1 h2 h3 false]
    simp
  · rw [show interpolate (.str ("\x7b" ++ name ++ "\x7d")) ctx true
        = interpolateStr ("\x7b" ++ name ++ "\x7d") ctx true from rfl,
      interpolateStr_simple_missing name ctx h1 h2 h3 true]
    simp

/-- C3, witness: the amended theorem at `name = "q"` over a context holding
only `a`. -/
theorem c3_witness :
    interpolate (.str ("\x7b" ++ "q" ++ "\x7d")) (pfields [("a", .str "1")]) false
      = .error (.attributeError
          ("Error interpolating " ++ ("\x7b" ++ "q" ++ "\x7d"))) ∧
    interpolate (.str ("\x7b" ++ "q" ++ "\x7d")) (pfields [("a", .str "1")]) true
      = .ok (.str ("\x7b" ++ "q" ++ "\x7d")) :=
  c3_missing_ref_attributeError_or_unchanged "q" (pfields [("a", .str "1")])
    (by decide) (by decide) (by decide)

/-- C3, counterexample.  Interpolating the string `"\x7bq\x7d"` against a
context lacking `q`, with `allow_missing` unset, raises the **builtin**
`AttributeError` (`utils._interpolate_str` line 167) — not a typed
`MissingContextError`: no class of that name exists anywhere in the
repository (`model/exceptions.py` defines only `ModelError`,
`ConfigurationError` and `ValidationError`), so the raised error is not even
a `ModelError`. -/
theorem c3_missing_ref_raises_builtin_not_typed :
    interpolate (.str "{q}") (pfields [("a", .str "1")]) false
      = .error (.attributeError "Error interpolating {q}") ∧
    PyErr.isModelError (.attributeError "Error interpolating {q}") = false := by
  constructor
  · decide
  · decide



/-! ### C10: `allow_missing` is not propagated into nested dicts -/

/-- C10.  `utils.interpolate`'s dict branch recurses with
`interpolate(v, data_context)`, dropping `allow_missing` back to its `False`
default: a missing reference in a string field of a dict nested inside the
input dict raises even under `allow_missing = True`, while the same
reference as the top-level input, or as an element of a list, is returned
unresolved. -/
theorem c10_allow_missing_dropped_in_nested_dicts :
    ∀ (name : String) (ctx : PyFields) (k1 k2 : String) (t1 t2 : PyFields),
      isPyIdent name = true →
      (∀ c ∈ name.data, c ≠ '}' ∧ c ≠ '{') →
      ctx.lookup name = Option.none →
      interpolate (.dict (.cons k1 (.dict (.cons k2
            (.str ("\x7b" ++ name ++ "\x7d")) t2)) t1)) ctx true
        = .error (.attributeError
            ("Error interpolating " ++ ("\x7b" ++ name ++ "\x7d"))) ∧
      interpolate (.str ("\x7b" ++ name ++ "\x7d")) ctx true
        = .ok (.str ("\x7b" ++ name ++ "\x7d")) ∧
      interpolate (.list (.cons (.str ("\x7b" ++ name ++ "\x7d")) .nil)) ctx true
        = .ok (.list (.cons (.str ("\x7b" ++ name ++ "\x7d")) .nil)) := by
  intro name ctx k1 k2 t1 t2 h1 h2 h3
  have hf : interpolateStr ("\x7b" ++ name ++ "\x7d") ctx false
      = .error (.attributeError ("Error interpolating " ++ ("\x7b" ++ name ++ "\x7d"))) := by
    rw [interpolateStr_simple_missing name ctx h1 h2 h3 false]
    simp
  have ht : interpolateStr ("\x7b" ++ name ++ "\x7d") ctx true
      = .ok (.str ("\x7b" ++ name ++ "\x7d")) := by
    rw [interpolateStr_simple_missing name ctx h1 h2 h3 true]
    simp
  refine ⟨?_, ?_, ?_⟩
  · simp only [interpolate, interpolateFields, interpolateDictItem, hf]
  · simp only [interpolate, ht]
  · simp only [interpolate, interpolateItems, ht]

/-- C10, witness at `name = "q"`, nested under keys `x`/`y`, over a context
holding only `a`. -/
theorem c10_witness :
    interpolate (.dict (.cons "x" (.dict (.cons "y"
          (.str ("\x7b" ++ "q" ++ "\x7d")) .nil)) .nil))
        (pfields [("a", .str "1")]) true
      = .error (.attributeError
          ("Error interpolating " ++ ("\x7b" ++ "q" ++ "\x7d"))) ∧
    interpolate (.str ("\x7b" ++ "q" ++ "\x7d"))
        (pfields [("a", .str "1")]) true
      = .ok (.str ("\x7b" ++ "q" ++ "\x7d")) ∧
    interpolate (.list (.cons (.str ("\x7b" ++ "q" ++ "\x7d")) .nil))
        (pfields [("a", .str "1")]) true
      = .ok (.list (.cons (.str ("\x7b" ++ "q" ++ "\x7d")) .nil)) :=
  c10_allow_missing_dropped_in_nested_dicts "q"
    (pfields [("a", .str "1")]) "x" "y" .nil .nil
    (by decide) (by decide) (by decide)



/-! ### C4: the `render_graph` hook ordering -/


def eventRank : REvent → Nat
  | .initCall _ => 0
  | .renderCall mn _ _ =>
      if strStarts mn "pre_" then 1 else if strStarts mn "post_" then 5 else 3
  | .renderEpCall mn _ _ =>
      if strStarts mn "pre_" then 2 else if strStarts mn "post_" then 6 else 4
  | .finiCall _ => 7

theorem strStarts_append (p s : String) : strStarts (p ++ s) p = true := by
  show listIsPref p.data (p.data ++ s.data) = true
  induction p.data with
  | nil => rfl
  | cons c cs ih => simp [listIsPref, ih]

theorem initCalls_rank (g : GraphR) : ∀ e ∈ initCalls g, eventRank e = 0 := by
  intro e he
  simp only [initCalls, List.mem_flatMap, List.mem_filterMap] at he
  obtain ⟨rt, _, p, _, hp⟩ := he
  by_cases hd : p.defines "init"
  · rw [if_pos hd] at hp
    injection hp with h
    rw [← h]
    rfl
  · rw [if_neg hd] at hp
    exact absurd hp (by simp)

theorem finiCalls_rank (g : GraphR) : ∀ e ∈ finiCalls g, eventRank e = 7 := by
  intro e he
  simp only [finiCalls, List.mem_flatMap, List.mem_filterMap] at he
  obtain ⟨rt, _, p, _, hp⟩ := he
  by_cases hd : p.defines "fini"
  · rw [if_pos hd] at hp
    injection hp with h
    rw [← h]
    rfl
  · rw [if_neg hd] at hp
    exact absurd hp (by simp)

theorem svcCalls_rank (g : GraphR) (ph : String) (r : Nat)
    (hr : ∀ k : String, eventRank (.renderCall (ph ++ ("render_" ++ k)) "" "") = r) :
    ∀ e ∈ svcCalls ph g, eventRank e = r := by
  intro e he
  simp only [svcCalls, List.mem_flatMap] at he
  obtain ⟨s, _, hin⟩ := he
  match hrt : s.runtime with
  | Option.none => rw [hrt] at hin; simp at hin
  | some rt =>
      rw [hrt] at hin
      simp only [List.mem_filterMap] at hin
      obtain ⟨p, _, hp⟩ := hin
      by_cases hd : p.defines (ph ++ "render_" ++ strLower s.kind)
      · rw [if_pos hd] at hp
        injection hp with h
        rw [← h]
        have := hr (strLower s.kind)
        simpa [String.append_assoc] using this
      · rw [if_neg hd] at hp
        exact absurd hp (by simp)

theorem relCalls_rank (g : GraphR) (ph : String) (r : Nat)
    (hr : eventRank (.renderEpCall (ph ++ "render_relation_ep") "" "") = r) :
    ∀ e ∈ relCalls ph g, eventRank e = r := by
  intro e he
  simp only [relCalls, List.mem_flatMap] at he
  obtain ⟨rel, _, ep, _, hin⟩ := he
  match hrt : ep.serviceRuntime with
  | Option.none => rw [hrt] at hin; simp at hin
  | some rt =>
      rw [hrt] at hin
      simp only [List.mem_filterMap] at hin
      obtain ⟨p, _, hp⟩ := hin
      by_cases hd : p.defines (ph ++ "render_relation_ep")
      · rw [if_pos hd] at hp
        injection hp with h
        rw [← h]
        exact hr
      · rw [if_neg hd] at hp
        exact absurd hp (by simp)


theorem pairwise_const_rank (r : Nat) :
    ∀ (l : List REvent), (∀ e ∈ l, eventRank e = r) →
      List.Pairwise (fun a b => eventRank a ≤ eventRank b) l
  | [], _ => .nil
  | e :: t, h =>
      .cons (fun b hb => by rw [h e (by simp), h b (by simp [hb])])
        (pairwise_const_rank r t (fun x hx => h x (by simp [hx])))

theorem pairwise_rank_flat :
    ∀ (segs : List (List REvent × Nat)),
      (∀ pr ∈ segs, ∀ e ∈ pr.1, eventRank e = pr.2) →
      List.Pairwise (fun p q => p ≤ q) (segs.map Prod.snd) →
      List.Pairwise (fun a b => eventRank a ≤ eventRank b) (segs.flatMap Prod.fst)
  | [], _, _ => .nil
  | (l, r) :: rest, hrk, hsnd => by
      have hsnd2 : List.Pairwise (fun p q => p ≤ q) (r :: rest.map Prod.snd) := by
        simpa using hsnd
      have hhead := (List.pairwise_cons.mp hsnd2).1
      have htail := (List.pairwise_cons.mp hsnd2).2
      simp only [List.flatMap_cons]
      refine List.pairwise_append.mpr ⟨?_, ?_, ?_⟩
      · exact pairwise_const_rank r l (hrk (l, r) (by simp))
      · exact pairwise_rank_flat rest (fun pr hpr => hrk pr (by simp [hpr])) htail
      · intro a ha b hb
        rw [hrk (l, r) (by simp) a ha]
        simp only [List.mem_flatMap] at hb
        obtain ⟨pr, hpr, hbin⟩ := hb
        rw [hrk pr (by simp [hpr]) b hbin]
        exact hhead pr.2 (List.mem_map_of_mem Prod.snd hpr)


theorem mem_foldl_dedup :
    ∀ (l acc : List RuntimeImpl) (x : RuntimeImpl), x ∈ acc ∨ x ∈ l →
      x ∈ l.foldl (fun acc rt => if acc.contains rt then acc else acc ++ [rt]) acc
  | [], acc, x, h => by
      rcases h with h | h
      · exact h
      · simp at h
  | rt :: t, acc, x, h => by
      simp only [List.foldl_cons]
      by_cases hc : acc.contains rt
      · rw [if_pos hc]
        apply mem_foldl_dedup t acc x
        rcases h with h | h
        · exact .inl h
        · rcases List.mem_cons.mp h with he | ht
          · subst he
            exact .inl (by simpa using hc)
          · exact .inr ht
      · rw [if_neg hc]
        apply mem_foldl_dedup t (acc ++ [rt]) x
        rcases h with h | h
        · exact .inl (List.mem_append_left _ h)
        · rcases List.mem_cons.mp h with he | ht
          · subst he
            exact .inl (List.mem_append_right _ (by simp))
          · exact .inr ht

/-- C4.  The hook-invocation trace of `runtime.render_graph` is monotone in
the phase rank — every `init` (rank 0) precedes every render call, the
phases run in the order `pre_` (service rank 1, relation-endpoint rank 2),
`""` (3, 4), `post_` (5, 6), with the service loop before the
relation-endpoint loop inside each phase, and every `fini` (rank 7) comes
last; moreover every Runtime referenced by a service is collected, and every
plugin of a collected Runtime that defines `init` (resp. `fini`) appears in
the trace. -/
theorem c4_render_graph_hook_order :
    ∀ (g : GraphR),
      List.Pairwise (fun a b => eventRank a ≤ eventRank b) (renderGraphTrace g) ∧
      (∀ s ∈ g.services, ∀ rt, s.runtime = some rt → rt ∈ runtimesOf g) ∧
      (∀ rt ∈ runtimesOf g, ∀ p ∈ rt.plugins, p.defines "init" = true →
        REvent.initCall p.name ∈ renderGraphTrace g) ∧
      (∀ rt ∈ runtimesOf g, ∀ p ∈ rt.plugins, p.defines "fini" = true →
        REvent.finiCall p.name ∈ renderGraphTrace g) := by
  intro g
  refine ⟨?_, ?_, ?_, ?_⟩
  · have h := pairwise_rank_flat
      [(initCalls g, 0), (svcCalls "pre_" g, 1), (relCalls "pre_" g, 2),
       (svcCalls "" g, 3), (relCalls "" g, 4), (svcCalls "post_" g, 5),
       (relCalls "post_" g, 6), (finiCalls g, 7)]
      ?_ (by simp)
    · have he : renderGraphTrace g =
          ([(initCalls g, 0), (svcCalls "pre_" g, 1), (relCalls "pre_" g, 2),
            (svcCalls "" g, 3), (relCalls "" g, 4), (svcCalls "post_" g, 5),
            (relCalls "post_" g, 6), (finiCalls g, 7)].flatMap Prod.fst) := by
        simp [renderGraphTrace, List.flatMap_cons, List.append_assoc]
      rw [he]
      exact h
    · intro pr hpr
      simp only [List.mem_cons] at hpr
      rcases hpr with h | h | h | h | h | h | h | h | h
      all_goals first
        | (subst h
           first
             | exact initCalls_rank g
             | exact finiCalls_rank g
             | exact svcCalls_rank g "pre_" 1 (fun k => by
                 show (if strStarts ("pre_" ++ ("render_" ++ k)) "pre_" then 1
                    else if strStarts ("pre_" ++ ("render_" ++ k)) "post_" then 5 else 3) = 1
                 rw [strStarts_append]
                 simp)
             | exact svcCalls_rank g "" 3 (fun k => by
                 show (if strStarts ("" ++ ("render_" ++ k)) "pre_" then 1
                    else if strStarts ("" ++ ("render_" ++ k)) "post_" then 5 else 3) = 3
                 have h1 : strStarts ("" ++ ("render_" ++ k)) "pre_" = false := by
                   show listIsPref "pre_".data ("render_" ++ k).data = false
                   show listIsPref "pre_".data ('r' :: ("ender_".data ++ k.data)) = false
                   simp [listIsPref]
                 have h2 : strStarts ("" ++ ("render_" ++ k)) "post_" = false := by
                   show listIsPref "post_".data ('r' :: ("ender_".data ++ k.data)) = false
                   simp [listIsPref]
                 rw [h1, h2]
                 simp)
             | exact svcCalls_rank g "post_" 5 (fun k => by
                 show (if strStarts ("post_" ++ ("render_" ++ k)) "pre_" then 1
                    else if strStarts ("post_" ++ ("render_" ++ k)) "post_" then 5 else 3) = 5
                 have h1 : strStarts ("post_" ++ ("render_" ++ k)) "pre_" = false := by
                   show listIsPref "pre_".data ('p' :: ("ost_".data ++ ("render_" ++ k).data)) = false
                   simp [listIsPref]
                 rw [h1, strStarts_append]
                 simp)
             | exact relCalls_rank g "pre_" 2 (by decide)
             | exact relCalls_rank g "" 4 (by decide)
             | exact relCalls_rank g "post_" 6 (by decide))
        | simp at h
  · intro s hs rt hrt
    apply mem_foldl_dedup _ [] rt
    right
    simp only [List.mem_filterMap]
    exact ⟨s, hs, hrt⟩
  · intro rt h p hp hd
    apply List.mem_append_left
    apply List.mem_append_left
    simp only [initCalls, List.mem_flatMap, List.mem_filterMap]
    exact ⟨rt, h, p, hp, by rw [if_pos hd]⟩
  · intro rt h p hp hd
    apply List.mem_append_right
    simp only [finiCalls, List.mem_flatMap, List.mem_filterMap]
    exact ⟨rt, h, p, hp, by rw [if_pos hd]⟩


def plugA : Plugin :=
  ⟨"pa", [("init", .str "i"), ("render_service", .str "rs"), ("fini", .str "f")]⟩

def plugB : Plugin := ⟨"pb", [("pre_render_relation_ep", .str "pr")]⟩

def rtImplW : RuntimeImpl := ⟨"rw", [plugA, plugB]⟩

def gW : GraphR :=
  ⟨[⟨"s1", "Service", some rtImplW⟩], [⟨"Relation", [⟨"e1", some rtImplW⟩]⟩]⟩

/-- C4, witness: a one-service one-relation graph whose runtime has an
`init`/`render_service`/`fini` plugin and a `pre_render_relation_ep`
plugin; the trace is computed explicitly. -/
theorem c4_witness :
    ((List.Pairwise (fun a b => eventRank a ≤ eventRank b) (renderGraphTrace gW)) ∧
     (∀ s ∈ gW.services, ∀ rt, s.runtime = some rt → rt ∈ runtimesOf gW) ∧
     (∀ rt ∈ runtimesOf gW, ∀ p ∈ rt.plugins, p.defines "init" = true →
       REvent.initCall p.name ∈ renderGraphTrace gW) ∧
     (∀ rt ∈ runtimesOf gW, ∀ p ∈ rt.plugins, p.defines "fini" = true →
       REvent.finiCall p.name ∈ renderGraphTrace gW)) ∧
    renderGraphTrace gW
      = [.initCall "pa", .renderEpCall "pre_render_relation_ep" "e1" "pb",
         .renderCall "render_service" "s1" "pa", .finiCall "pa"] :=
  ⟨c4_render_graph_hook_order gW, by decide⟩



/-! ### C5: reverse-order capability lookup -/

theorem methodLookupGo_skip (attr : String) :
    ∀ (l1 l2 : List Plugin), (∀ q ∈ l1, q.defines attr = false) →
      methodLookupGo attr (l1 ++ l2) = methodLookupGo attr l2
  | [], l2, _ => rfl
  | q :: t, l2, h => by
      have hq := h q (by simp)
      rw [Plugin.defines] at hq
      rw [List.cons_append, methodLookupGo]
      match hga : q.getattrD attr with
      | Option.none =>
          exact methodLookupGo_skip attr t l2 (fun x hx => h x (by simp [hx]))
      | some m =>
          rw [hga] at hq
          simp at hq
          simp only [hq]
          rw [if_neg (by simp [hq])]
          exact methodLookupGo_skip attr t l2 (fun x hx => h x (by simp [hx]))

theorem methodLookupGo_all_missing (attr : String) :
    ∀ (l : List Plugin), (∀ q ∈ l, q.defines attr = false) →
      methodLookupGo attr l
        = .error (.attributeError ("RuntimeImpl plugins didn't provide a method " ++ attr)) := by
  intro l h
  have := methodLookupGo_skip attr l [] h
  rw [List.append_nil] at this
  rw [this, methodLookupGo]

/-- C5.  `RuntimeImpl.method_lookup` with its default `reverse=True` scans
the plugin list in reverse registration order: the last-registered plugin
with a truthy attribute of the requested name wins, later-registered
plugins lacking the capability are skipped over in favour of earlier ones,
and when no plugin provides it the lookup raises `AttributeError`. -/
theorem c5_method_lookup_reverse_order :
    (∀ (rt : RuntimeImpl) (attr : String) (pre post : List Plugin)
        (p : Plugin) (m : PyVal),
      rt.plugins = pre ++ p :: post →
      p.getattrD attr = some m → pyTruthy m = true →
      (∀ q ∈ post, q.defines attr = false) →
      rt.methodLookup attr true = .ok m) ∧
    (∀ (rt : RuntimeImpl) (attr : String),
      (∀ p ∈ rt.plugins, p.defines attr = false) →
      rt.methodLookup attr true
        = .error (.attributeError
            ("RuntimeImpl plugins didn't provide a method " ++ attr))) := by
  constructor
  · intro rt attr pre post p m hsplit hga ht hpost
    rw [RuntimeImpl.methodLookup, if_pos rfl, hsplit]
    rw [show (pre ++ p :: post).reverse = post.reverse ++ (p :: pre.reverse) from by
      simp]
    rw [methodLookupGo_skip attr post.reverse (p :: pre.reverse)
      (fun q hq => hpost q (List.mem_reverse.mp hq))]
    rw [methodLookupGo, hga]
    simp only [ht, if_true]
  · intro rt attr h
    rw [RuntimeImpl.methodLookup, if_pos rfl]
    exact methodLookupGo_all_missing attr rt.plugins.reverse
      (fun q hq => h q (List.mem_reverse.mp hq))

def rtW5 : RuntimeImpl := ⟨"r", [⟨"p1", [("cap", .str "old")]⟩, ⟨"p2", []⟩]⟩

/-- C5, witness: `p2` is registered last but lacks `cap`, so the lookup
falls back to `p1`; nobody provides `zap`, so that lookup raises. -/
theorem c5_witness :
    rtW5.methodLookup "cap" true = .ok (.str "old") ∧
    rtW5.methodLookup "zap" true
      = .error (.attributeError
          ("RuntimeImpl plugins didn't provide a method " ++ "zap")) :=
  ⟨c5_method_lookup_reverse_order.1 rtW5 "cap" [] [⟨"p2", []⟩]
      ⟨"p1", [("cap", .str "old")]⟩ (.str "old") (by decide) (by decide)
      (by decide) (by decide),
   c5_method_lookup_reverse_order.2 rtW5 "zap" (by decide)⟩



/-! ### C6: the Output accumulator never overwrites -/

/-- C6.  `render.Renderer.add` on a name that is already recorded never
overwrites the stored payload: without `ignore_existing` it signals the
collision (the logged warning, surfaced as the returned flag) and returns
the accumulator unchanged; with `ignore_existing=True` it returns silently,
also unchanged. -/
theorem c6_add_never_overwrites :
    ∀ (r : Renderer) (name : String) (d1 d2 : PyVal) (plugin : String)
      (kwargs : PyFields),
      r.payload name = some d1 →
      r.add name d2 plugin false kwargs = (r, true) ∧
      r.add name d2 plugin true kwargs = (r, false) ∧
      (r.add name d2 plugin false kwargs).1.payload name = some d1 ∧
      (r.add name d2 plugin true kwargs).1.payload name = some d1 := by
  intro r name d1 d2 plugin kwargs h
  have hs : (alookup r.index name).isSome = true := by
    rw [Renderer.payload] at h
    match ha : alookup r.index name with
    | Option.none => rw [ha] at h; simp at h
    | some o => rfl
  have h1 : r.add name d2 plugin false kwargs = (r, true) := by
    rw [Renderer.add, if_pos hs, if_neg (by simp)]
  have h2 : r.add name d2 plugin true kwargs = (r, false) := by
    rw [Renderer.add, if_pos hs, if_pos rfl]
  exact ⟨h1, h2, by rw [h1]; exact h, by rw [h2]; exact h⟩

def rW6 : Renderer :=
  { items := [⟨"x", .str "one", .nil⟩], index := [("x", ⟨"x", .str "one", .nil⟩)] }

/-- C6, witness: the renderer already holds `x ↦ "one"`; both flavours of a
second `add` leave it untouched, the plain one signalling the collision. -/
theorem c6_witness :
    rW6.add "x" (.str "two") "p" false .nil = (rW6, true) ∧
    rW6.add "x" (.str "two") "p" true .nil = (rW6, false) ∧
    (rW6.add "x" (.str "two") "p" false .nil).1.payload "x" = some (.str "one") ∧
    (rW6.add "x" (.str "two") "p" true .nil).1.payload "x" = some (.str "one") :=
  c6_add_never_overwrites rW6 "x" (.str "one") (.str "two") "p" .nil (by decide)



/-! ### C7: `Store.add` replaces under the id, it never facet-merges -/

theorem mem_keys_aset {A : Type} :
    ∀ (l : List (String × A)) (k : String) (v : A) (a : String),
      a ∈ (aset l k v).map Prod.fst → a = k ∨ a ∈ l.map Prod.fst
  | [], k, v, a, h => by
      rw [aset] at h
      simp at h
      exact .inl h
  | (k0, w) :: t, k, v, a, h => by
      by_cases hk : k0 = k
      · rw [aset, if_pos hk] at h
        simp only [List.map_cons, List.mem_cons] at h ⊢
        rcases h with h | h
        · exact .inr (.inl (by rw [h, hk]))
        · exact .inr (.inr h)
      · rw [aset, if_neg hk] at h
        simp only [List.map_cons, List.mem_cons] at h
        rcases h with h | h
        · exact .inr (by simp [h])
        · rcases mem_keys_aset t k v a h with h2 | h2
          · exact .inl h2
          · exact .inr (by simp [h2])

theorem aset_keys_nodup {A : Type} :
    ∀ (l : List (String × A)) (k : String) (v : A),
      (l.map Prod.fst).Nodup → ((aset l k v).map Prod.fst).Nodup
  | [], k, v, _ => by
      rw [aset]
      simp
  | (k0, w) :: t, k, v, h => by
      simp only [List.map_cons, List.nodup_cons] at h
      by_cases hk : k0 = k
      · rw [aset, if_pos hk]
        simp only [List.map_cons, List.nodup_cons]
        exact h
      · rw [aset, if_neg hk]
        simp only [List.map_cons, List.nodup_cons]
        refine ⟨?_, aset_keys_nodup t k v h.2⟩
        intro hmem
        rcases mem_keys_aset t k v k0 hmem with h2 | h2
        · exact hk h2
        · exact h.1 h2

/-- C7, amended.  `Store.add` is plain replacement under the computed
`kind:name` id (`store.py`: `self.__state[eid] = entity`): after the call
the object stored under the id is the added object itself — any previous
entry is discarded wholesale, no facet is attached to it — and the store
keeps at most one entry per id (`aset` preserves key uniqueness). -/
theorem c7_store_add_replaces :
    (∀ (st : Store) (obj : StoredObj) (eid : String),
      storedId obj = .ok eid →
      st.add obj = .ok { st with state := aset st.state eid obj } ∧
      alookup (aset st.state eid obj) eid = some obj) ∧
    (∀ (l : List (String × StoredObj)) (k : String) (v : StoredObj),
      (l.map Prod.fst).Nodup → ((aset l k v).map Prod.fst).Nodup) := by
  constructor
  · intro st obj eid h
    rw [Store.add, h]
    exact ⟨rfl, alookup_aset_self st.state eid obj⟩
  · exact fun l k v h => aset_keys_nodup l k v h

def e7a : Entity :=
  entOf 11 [("name", .str "n"), ("kind", .str "Component"), ("a", .str "1")]
    (.strRef "f1")

def e7b : Entity :=
  entOf 12 [("name", .str "n"), ("kind", .str "Component"), ("b", .str "2")]
    (.strRef "f2")

def st7a : Store := ⟨[("Component:n", .entity e7a)], []⟩

/-- C7, counterexample.  Adding a second entity with the same `(kind, name)`
identity `Component:n` REPLACES the stored entry with the new object: the
previously stored facet data (`a = "1"`) is gone from the store, and the
stored object is the second entity exactly as passed in, still carrying its
single own facet — no facet was attached to the existing entry, refuting
the claimed merge-by-facet behaviour. -/
theorem c7_second_add_discards_first :
    (Store.mk [] []).add (.entity e7a) = .ok st7a ∧
    st7a.add (.entity e7b) = .ok ⟨[("Component:n", .entity e7b)], []⟩ ∧
    alookup [("Component:n", StoredObj.entity e7b)] "Component:n"
      = some (.entity e7b) ∧
    e7b.srcRef.length = 1 ∧
    e7a.view.lookup "a" = some (.str "1") ∧
    e7b.view.lookup "a" = Option.none := by
  refine ⟨by decide, by decide, by decide, by decide, by decide, by decide⟩

/-- C7, witness: the amended theorem at the two-entity example. -/
theorem c7_witness :
    st7a.add (.entity e7b)
      = .ok { st7a with state := aset st7a.state "Component:n" (.entity e7b) } ∧
    alookup (aset st7a.state "Component:n" (.entity e7b)) "Component:n"
      = some (.entity e7b) :=
  c7_store_add_replaces.1 st7a (.entity e7b) "Component:n" (by decide)


/-! ### C8: the `facets` property mispairs data and provenance -/

def e8a : Entity :=
  ⟨21, [pfields [("a", .int 1)], .nil], [.pathRef "f1"],
   pfields [("a", .int 1)], Option.none⟩

def e8 : Entity :=
  ⟨21, [pfields [("a", .int 2), ("b", .int 3)], pfields [("a", .int 1)], .nil],
   [.pathRef "f1", .pathRef "f2"],
   pfields [("a", .int 2), ("b", .int 3)], Option.none⟩

/-- C8.  `Entity.facets` is
`tuple(reversed(tuple(zip(maps, refs))))` where `maps` lists facet data most
recent FIRST while `src_ref` lists provenance in insertion order (oldest
first): for the entity built from facet `\x7ba: 1\x7d` at `"f1"` and then
facet `\x7ba: 2, b: 3\x7d` at `"f2"`, the property pairs the first-added
data with the second-added provenance (and vice versa), and returns the
pairs oldest-data-first — not, as the spec states, reverse-insertion order
with each facet's own provenance.  (The materialized view `\x7ba: 2, b: 3\x7d`
is as specified.) -/
theorem c8_facets_mispair_provenance :
    Entity.make 21 (pfields [("a", .int 1)]) Option.none (.strRef "f1")
      = .ok e8a ∧
    e8a.addFacet (pfields [("a", .int 2), ("b", .int 3)]) (.strRef "f2")
      = .ok e8 ∧
    e8.facets
      = [(pfields [("a", .int 1)], .pathRef "f2"),
         (pfields [("a", .int 2), ("b", .int 3)], .pathRef "f1")] ∧
    e8.serialized = .dict (pfields [("a", .int 2), ("b", .int 3)]) := by
  refine ⟨by decide, by decide, by decide, by decide⟩


/-! ### C9: the facet merge ignores the schema and is idempotent -/

theorem mergeFields_nil_wf (m : PyFields) (h : PyFields.wf m = true) :
    jsonMergeFields .nil m = .ok m := by
  rw [jsonMergeFields_disjoint m .nil h
    (by intro k _; simp [PyFields.hasKey, PyFields.lookup])]
  rfl

theorem mcmViewLoop_append_ok :
    ∀ (l1 l2 : List PyFields) (r r1 : PyFields),
      mcmViewLoop r l1 = .ok r1 →
      mcmViewLoop r (l1 ++ l2) = mcmViewLoop r1 l2
  | [], l2, r, r1, h => by
      simp [mcmViewLoop] at h
      subst h
      rfl
  | m :: t, l2, r, r1, h => by
      simp only [mcmViewLoop] at h
      rw [List.cons_append, mcmViewLoop]
      match hm : jsonMergeFields r m with
      | .error e => rw [hm] at h; simp at h
      | .ok r2 =>
          rw [hm] at h
          exact mcmViewLoop_append_ok t l2 r2 r1 h

theorem mcmViewLoop_snoc_inv :
    ∀ (l : List PyFields) (d r v : PyFields),
      mcmViewLoop r (l ++ [d]) = .ok v →
      ∃ r1, mcmViewLoop r l = .ok r1 ∧ jsonMergeFields r1 d = .ok v
  | [], d, r, v, h => by
      refine ⟨r, rfl, ?_⟩
      simp only [List.nil_append, mcmViewLoop] at h
      match hm : jsonMergeFields r d with
      | .error e => rw [hm] at h; simp [mcmViewLoop] at h
      | .ok r2 =>
          rw [hm] at h
          simp [mcmViewLoop] at h
          rw [h]
  | m :: t, d, r, v, h => by
      rw [List.cons_append, mcmViewLoop] at h
      match hm : jsonMergeFields r m with
      | .error e => rw [hm] at h; exact absurd h (by simp)
      | .ok r2 =>
          rw [hm] at h
          obtain ⟨r1, h1, h2⟩ := mcmViewLoop_snoc_inv t d r2 v h
          exact ⟨r1, by rw [mcmViewLoop, hm]; exact h1, h2⟩

/-- C9, amended.  The facet merge of `utils.MergingChainMap._update` invokes
`jsonmerge.merge(r, m)` with NO schema, so the default strategies always
apply and the entity's stored schema — `append` declarations included — is
never consulted: (a) pushing an **empty** facet leaves the materialized view
unchanged; (b) pushing the **same** well-formed facet a second time also
leaves the view unchanged — the merge is idempotent for every field, there
is no non-idempotent `append` behaviour. -/
theorem c9_empty_facet_and_idempotent_refacet :
    (∀ (e : Entity) (ref : SrcRef),
      e.maps.all PyFields.wf = true →
      mcmView e.maps = .ok e.view →
      e.addFacet .nil ref
        = .ok { e with maps := .nil :: e.maps,
                       srcRef := e.srcRef ++ [srcRefNorm ref],
                       view := e.view }) ∧
    (∀ (e e1 : Entity) (d : PyFields) (ref ref2 : SrcRef),
      PyFields.wf d = true →
      e.addFacet d ref = .ok e1 →
      e1.addFacet d ref2
        = .ok { e1 with maps := d :: e1.maps,
                        srcRef := e1.srcRef ++ [srcRefNorm ref2],
                        view := e1.view }) := by
  constructor
  · intro e ref hwf hview
    rw [Entity.addFacet]
    have hv : mcmView (.nil :: e.maps) = .ok e.view := by
      match hmaps : e.maps with
      | [] =>
          rw [hmaps] at hview
          simp only [mcmView, mcmViewLoop] at hview ⊢
          exact hview
      | [m] =>
          rw [hmaps] at hview hwf
          simp only [mcmView] at hview
          have hm := Except.ok.inj hview
          simp only [List.all_cons, Bool.and_eq_true] at hwf
          simp only [mcmView, List.reverse_cons, List.reverse_nil,
            List.nil_append, mcmViewLoop]
          rw [mergeFields_nil_wf m hwf.1]
          simp only [mcmViewLoop]
          rw [jsonMergeFields, hm]
      | m :: m2 :: rest =>
          rw [hmaps] at hview
          simp only [mcmView] at hview ⊢
          rw [show (PyFields.nil :: m :: m2 :: rest).reverse
              = (m :: m2 :: rest).reverse ++ [PyFields.nil] from by simp]
          rw [mcmViewLoop_append_ok (m :: m2 :: rest).reverse [PyFields.nil]
            .nil e.view hview]
          simp [mcmViewLoop, jsonMergeFields]
    rw [hv]
  · intro e e1 d ref ref2 hwf hm
    rw [Entity.addFacet] at hm
    match hv1 : mcmView (d :: e.maps) with
    | .error err => rw [hv1] at hm; exact absurd hm (by simp)
    | .ok v1 =>
        rw [hv1] at hm
        simp only [Except.ok.injEq] at hm
        have he1maps : e1.maps = d :: e.maps := by rw [← hm]
        have he1view : e1.view = v1 := by rw [← hm]
        rw [Entity.addFacet]
        have hv2 : mcmView (d :: e1.maps) = .ok e1.view := by
          rw [he1maps, he1view]
          match hmaps : e.maps with
          | [] =>
              rw [hmaps] at hv1
              simp only [mcmView] at hv1
              have hd := Except.ok.inj hv1
              simp only [mcmView, List.reverse_cons, List.reverse_nil,
                List.nil_append, mcmViewLoop]
              rw [mergeFields_nil_wf d hwf]
              simp only [mcmViewLoop]
              have hidem := jsonMergeFields_idem d .nil d hwf
                (mergeFields_nil_wf d hwf)
              rw [hidem]
              rw [hd]
          | m :: rest =>
              rw [hmaps] at hv1
              simp only [mcmView] at hv1 ⊢
              rw [show (d :: m :: rest).reverse
                  = (m :: rest).reverse ++ [d] from by simp] at hv1
              obtain ⟨r1, hr1, hmr⟩ :=
                mcmViewLoop_snoc_inv (m :: rest).reverse d .nil v1 hv1
              rw [show (d :: d :: m :: rest).reverse
                  = ((m :: rest).reverse ++ [d]) ++ [d] from by simp]
              have hcomb : mcmViewLoop .nil ((m :: rest).reverse ++ [d]) = .ok v1 := by
                rw [mcmViewLoop_append_ok (m :: rest).reverse [d] .nil r1 hr1]
                simp only [mcmViewLoop]
                rw [hmr]
              have hiv : jsonMergeFields v1 d = .ok v1 :=
                jsonMergeFields_idem d r1 v1 hwf hmr
              rw [mcmViewLoop_append_ok ((m :: rest).reverse ++ [d]) [d] .nil v1 hcomb]
              simp only [mcmViewLoop]
              rw [hiv]
        rw [hv2]


/-- The schema of the C9 counterexample: it declares the `append` merge
strategy for field `lst`, exactly as `tests/test_merge.py` builds one. -/
def c9schema : PyVal :=
  pyd [("properties", pyd [("lst", pyd [("mergeStrategy", .str "append")])])]

def e9a : Entity :=
  ⟨31, [pfields [("lst", pyl [.int 1])], .nil], [.pathRef "g1"],
   pfields [("lst", pyl [.int 1])], some c9schema⟩

def e9b : Entity :=
  ⟨31, [pfields [("lst", pyl [.int 1])], pfields [("lst", pyl [.int 1])], .nil],
   [.pathRef "g1", .pathRef "g1"],
   pfields [("lst", pyl [.int 1])], some c9schema⟩

/-- C9, counterexample.  An entity whose schema declares `append` for `lst`:
adding the facet `\x7blst: [1]\x7d` twice leaves the materialized view at
`\x7blst: [1]\x7d` — the array does **not** double, because
`MergingChainMap._update` merges without the schema and the default
strategy simply overwrites the list. -/
theorem c9_append_schema_never_applies :
    (Entity.new 31 (some c9schema)).addFacet
        (pfields [("lst", pyl [.int 1])]) (.strRef "g1") = .ok e9a ∧
    e9a.addFacet (pfields [("lst", pyl [.int 1])]) (.strRef "g1") = .ok e9b ∧
    e9b.view = e9a.view ∧
    e9b.view.lookup "lst" = some (pyl [.int 1]) := by
  refine ⟨by decide, by decide, by decide, by decide⟩

/-- C9, witness: the amended theorem applied at the counterexample's
entity — an empty facet on `e9a`, and the same `lst` facet pushed onto
`e9a` a second time. -/
theorem c9_witness :
    e9a.addFacet .nil (.strRef "g2")
      = .ok { e9a with maps := .nil :: e9a.maps,
                       srcRef := e9a.srcRef ++ [srcRefNorm (.strRef "g2")],
                       view := e9a.view } ∧
    e9a.addFacet (pfields [("lst", pyl [.int 1])]) (.strRef "g1")
      = .ok { e9a with maps := pfields [("lst", pyl [.int 1])] :: e9a.maps,
                       srcRef := e9a.srcRef ++ [srcRefNorm (.strRef "g1")],
                       view := e9a.view } :=
  ⟨c9_empty_facet_and_idempotent_refacet.1 e9a (.strRef "g2")
      (by decide) (by decide),
   c9_empty_facet_and_idempotent_refacet.2 (Entity.new 31 (some c9schema)) e9a
      (pfields [("lst", pyl [.int 1])]) (.strRef "g1") (.strRef "g1")
      (by decide) (by decide)⟩

end ModelRepo
